import Mathlib

/-!
Verification development for the discovery/graph-tracking core of a DDS-based
middleware commons library (graph cache, topic cache, QoS compatibility
checking and QoS best-available resolution, and the context orchestration
layer).

The definitions below are a shallow embedding of the C++ sources:
  * `qos.cpp` (current revision, with best-available resolvers):
    `qos_profile_check_compatible`, `qos_profile_get_best_available_for_subscription`,
    `qos_profile_get_best_available_for_publisher`
  * `topic_cache.cpp`: `TopicCache::add_topic`, `TopicCache::remove_topic`
  * `graph_cache.cpp`: `GraphCache::update_participant_entities`,
    `GraphCache::add_node`, `GraphCache::remove_node`,
    `GraphCache::associate_writer/reader`, `GraphCache::dissociate_writer/reader`
  * `context.cpp`: the `Context::update_*_graph` / `Context::destroy_*_graph`
    orchestration operations.

Modelling conventions:
  * `std::map` is modelled as an association list (`List (κ × ν)`) with
    lookup / in-place update / erase helpers; only lookup and structural
    equality of map states are used by the theorems, so insertion order is
    irrelevant to every statement below.
  * Gids (24-byte entity identifiers) are modelled abstractly; the code under
    study only compares them for equality/ordering as map keys.
  * `std::vector::erase(std::find(...))` where the element may be absent is
    undefined behaviour in C++; it is modelled as `Option.none`.
  * Reason buffers: the C functions append diagnostic messages into a
    caller-supplied bounded char buffer via `rcutils_(v)snprintf`.  The
    embedding records the appended messages in order (`msgs`), and a separate
    `bufferContent` function folds the bounded-buffer append over them.
    `rcutils_vsnprintf` cannot fail on a valid buffer, so it never alters
    control flow and the two views agree with the source.
-/

set_option autoImplicit false

namespace RmwDdsCommon

/-- Model of `rmw_ret_t` status codes (from `rmw/ret_types.h`). -/
inductive RmwRet where
  | Ok
  | Error
  | BadAlloc
  | InvalidArgument
  | NodeNameNonExistent
deriving DecidableEq, Repr

/-- Model of `rmw_qos_compatibility_type_t`. -/
inductive Compatibility where
  | Ok
  | Warning
  | Error
deriving DecidableEq, Repr

/-- Model of `rmw_time_t`: two unsigned 64-bit fields.  The code under study
only compares times for equality and lexicographic order and never does
arithmetic on them, so `Nat` components are adequate. -/
structure RmwTime where
  sec : Nat
  nsec : Nat
deriving DecidableEq, Repr

/-- The static `operator<(rmw_time_t, rmw_time_t)` from `qos.cpp`:
lexicographic on `(sec, nsec)`. -/
def rmwTimeLt (t1 t2 : RmwTime) : Bool :=
  if t1.sec < t2.sec then true
  else if t1.sec = t2.sec ∧ t1.nsec < t2.nsec then true
  else false

/-- `RMW_DURATION_UNSPECIFIED` (from `rmw/types.h`). -/
def RMW_DURATION_UNSPECIFIED : RmwTime := ⟨0, 0⟩

/-- `RMW_DURATION_INFINITE` (from `rmw/types.h`). -/
def RMW_DURATION_INFINITE : RmwTime := ⟨9223372036, 854775807⟩

/-- `RMW_QOS_DEADLINE_DEFAULT`: the "no deadline" sentinel. -/
def RMW_QOS_DEADLINE_DEFAULT : RmwTime := RMW_DURATION_UNSPECIFIED

/-- `RMW_QOS_DEADLINE_BEST_AVAILABLE`: the "resolve from peers" sentinel. -/
def RMW_QOS_DEADLINE_BEST_AVAILABLE : RmwTime := ⟨9223372036, 854775806⟩

/-- `RMW_QOS_LIVELINESS_LEASE_DURATION_DEFAULT`. -/
def RMW_QOS_LIVELINESS_LEASE_DURATION_DEFAULT : RmwTime := RMW_DURATION_UNSPECIFIED

/-- `RMW_QOS_LIVELINESS_LEASE_DURATION_BEST_AVAILABLE`. -/
def RMW_QOS_LIVELINESS_LEASE_DURATION_BEST_AVAILABLE : RmwTime := ⟨9223372036, 854775806⟩

/-- `rmw_qos_reliability_policy_t`. -/
inductive Reliability where
  | systemDefault
  | reliable
  | bestEffort
  | bestAvailable
  | unknown
deriving DecidableEq, Repr

/-- `rmw_qos_durability_policy_t`. -/
inductive Durability where
  | systemDefault
  | transientLocal
  | volatileLocal
  | bestAvailable
  | unknown
deriving DecidableEq, Repr

/-- `rmw_qos_liveliness_policy_t`. -/
inductive Liveliness where
  | systemDefault
  | automatic
  | manualByTopic
  | bestAvailable
  | unknown
deriving DecidableEq, Repr

/-- Model of `rmw_qos_profile_t`.  `history`/`depth`/`lifespan`/
`avoid_ros_namespace_conventions` are carried but never evaluated by the
compatibility/resolution logic; they are included to state frame properties. -/
structure QoSProfile where
  history : Nat
  depth : Nat
  reliability : Reliability
  durability : Durability
  deadline : RmwTime
  lifespan : RmwTime
  liveliness : Liveliness
  liveliness_lease_duration : RmwTime
  avoid_ros_namespace_conventions : Bool
deriving DecidableEq, Repr

/-- `rmw_qos_reliability_policy_to_str`, with the call sites substituting
"unknown" for a NULL result (which happens exactly on the unknown value). -/
def reliabilityPolicyStr : Reliability → String
  | .systemDefault => "system_default"
  | .reliable => "reliable"
  | .bestEffort => "best_effort"
  | .bestAvailable => "best_available"
  | .unknown => "unknown"

/-- `rmw_qos_durability_policy_to_str`, NULL replaced by "unknown". -/
def durabilityPolicyStr : Durability → String
  | .systemDefault => "system_default"
  | .transientLocal => "transient_local"
  | .volatileLocal => "volatile"
  | .bestAvailable => "best_available"
  | .unknown => "unknown"

/-- `rmw_qos_liveliness_policy_to_str`, NULL replaced by "unknown". -/
def livelinessPolicyStr : Liveliness → String
  | .systemDefault => "system_default"
  | .automatic => "automatic"
  | .manualByTopic => "manual_by_topic"
  | .bestAvailable => "best_available"
  | .unknown => "unknown"

/-- The state threaded through `qos_profile_check_compatible`: the
compatibility verdict accumulated in `*compatibility` and the ordered list of
diagnostic messages appended to the reason buffer so far. -/
structure CheckState where
  compatibility : Compatibility
  msgs : List String
deriving DecidableEq, Repr

/-- One ERROR-class rule of `qos_profile_check_compatible`: if the condition
holds, set the verdict to ERROR and append the message. -/
def errRule (cond : Prop) [Decidable cond] (msg : String) (s : CheckState) : CheckState :=
  if cond then ⟨.Error, s.msgs ++ [msg]⟩ else s

/-- One WARNING-class `if / else if / else if` chain of
`qos_profile_check_compatible` (the source has one such chain per policy:
reliability, durability, liveliness). -/
def warnChain (c1 : Prop) [Decidable c1] (m1 : String) (c2 : Prop) [Decidable c2] (m2 : String)
    (c3 : Prop) [Decidable c3] (m3 : String) (s : CheckState) : CheckState :=
  if c1 then ⟨.Warning, s.msgs ++ [m1]⟩
  else if c2 then ⟨.Warning, s.msgs ++ [m2]⟩
  else if c3 then ⟨.Warning, s.msgs ++ [m3]⟩
  else s

/-- The ERROR-class section of `qos_profile_check_compatible` (qos.cpp):
all seven error rules are evaluated in order, messages accumulate. -/
def checkErrors (pub sub : QoSProfile) : CheckState :=
  let s : CheckState := ⟨.Ok, []⟩
  -- Best effort publisher and reliable subscription
  let s := errRule (pub.reliability = .bestEffort ∧ sub.reliability = .reliable)
    "ERROR: Best effort publisher and reliable subscription;" s
  -- Volatile publisher and transient local subscription
  let s := errRule (pub.durability = .volatileLocal ∧ sub.durability = .transientLocal)
    "ERROR: Volatile publisher and transient local subscription;" s
  -- No deadline for publisher and deadline for subscription
  let s := errRule
    (pub.deadline = RMW_QOS_DEADLINE_DEFAULT ∧ sub.deadline ≠ RMW_QOS_DEADLINE_DEFAULT)
    "ERROR: Subscription has a deadline, but publisher does not;" s
  -- Subscription deadline is less than publisher deadline
  let s := errRule
    (pub.deadline ≠ RMW_QOS_DEADLINE_DEFAULT ∧ sub.deadline ≠ RMW_QOS_DEADLINE_DEFAULT ∧
      rmwTimeLt sub.deadline pub.deadline = true)
    "ERROR: Subscription deadline is less than publisher deadline;" s
  -- Automatic liveliness for publisher and manual by topic for subscription
  let s := errRule (pub.liveliness = .automatic ∧ sub.liveliness = .manualByTopic)
    "ERROR: Publisher\x27s liveliness is automatic and subscription\x27s is manual by topic;" s
  -- No lease duration for publisher and lease duration for subscription
  let s := errRule
    (pub.liveliness_lease_duration = RMW_QOS_LIVELINESS_LEASE_DURATION_DEFAULT ∧
      sub.liveliness_lease_duration ≠ RMW_QOS_LIVELINESS_LEASE_DURATION_DEFAULT)
    "ERROR: Subscription has a liveliness lease duration, but publisher does not;" s
  -- Subscription lease duration is less than publisher lease duration
  let s := errRule
    (pub.liveliness_lease_duration ≠ RMW_QOS_LIVELINESS_LEASE_DURATION_DEFAULT ∧
      sub.liveliness_lease_duration ≠ RMW_QOS_LIVELINESS_LEASE_DURATION_DEFAULT ∧
      rmwTimeLt sub.liveliness_lease_duration pub.liveliness_lease_duration = true)
    "ERROR: Subscription liveliness lease duration is less than publisher;" s
  s

/-- Publisher reliability "cannot be determined statically": system default or
unknown (qos.cpp `pub_reliability_unknown`). -/
def pubReliabilityUnknown (pub : QoSProfile) : Prop :=
  pub.reliability = .systemDefault ∨ pub.reliability = .unknown

/-- qos.cpp `sub_reliability_unknown`. -/
def subReliabilityUnknown (sub : QoSProfile) : Prop :=
  sub.reliability = .systemDefault ∨ sub.reliability = .unknown

/-- qos.cpp `pub_durability_unknown`. -/
def pubDurabilityUnknown (pub : QoSProfile) : Prop :=
  pub.durability = .systemDefault ∨ pub.durability = .unknown

/-- qos.cpp `sub_durability_unknown`. -/
def subDurabilityUnknown (sub : QoSProfile) : Prop :=
  sub.durability = .systemDefault ∨ sub.durability = .unknown

/-- qos.cpp `pub_liveliness_unknown`. -/
def pubLivelinessUnknown (pub : QoSProfile) : Prop :=
  pub.liveliness = .systemDefault ∨ pub.liveliness = .unknown

/-- qos.cpp `sub_liveliness_unknown`. -/
def subLivelinessUnknown (sub : QoSProfile) : Prop :=
  sub.liveliness = .systemDefault ∨ sub.liveliness = .unknown

instance (pub : QoSProfile) : Decidable (pubReliabilityUnknown pub) := by
  unfold pubReliabilityUnknown; infer_instance

instance (sub : QoSProfile) : Decidable (subReliabilityUnknown sub) := by
  unfold subReliabilityUnknown; infer_instance

instance (pub : QoSProfile) : Decidable (pubDurabilityUnknown pub) := by
  unfold pubDurabilityUnknown; infer_instance

instance (sub : QoSProfile) : Decidable (subDurabilityUnknown sub) := by
  unfold subDurabilityUnknown; infer_instance

instance (pub : QoSProfile) : Decidable (pubLivelinessUnknown pub) := by
  unfold pubLivelinessUnknown; infer_instance

instance (sub : QoSProfile) : Decidable (subLivelinessUnknown sub) := by
  unfold subLivelinessUnknown; infer_instance

/-- The WARNING-class section of `qos_profile_check_compatible` (qos.cpp):
one if/else-if chain per policy, message texts format the policy names of both
sides. -/
def checkWarnings (pub sub : QoSProfile) (s : CheckState) : CheckState :=
  -- Reliability warnings
  let s := warnChain
    (pubReliabilityUnknown pub ∧ subReliabilityUnknown sub)
    ("WARNING: Publisher reliability is " ++ reliabilityPolicyStr pub.reliability ++
      " and subscription reliability is " ++ reliabilityPolicyStr sub.reliability ++ ";")
    (pubReliabilityUnknown pub ∧ sub.reliability = .reliable)
    ("WARNING: Reliable subscription, but publisher is " ++
      reliabilityPolicyStr pub.reliability ++ ";")
    (pub.reliability = .bestEffort ∧ subReliabilityUnknown sub)
    ("WARNING: Best effort publisher, but subscription is " ++
      reliabilityPolicyStr sub.reliability ++ ";")
    s
  -- Durability warnings ("durabilty" typo is in the source format string)
  let s := warnChain
    (pubDurabilityUnknown pub ∧ subDurabilityUnknown sub)
    ("WARNING: Publisher durabilty is " ++ durabilityPolicyStr pub.durability ++
      " and subscription durability is " ++ durabilityPolicyStr sub.durability ++ ";")
    (pubDurabilityUnknown pub ∧ sub.durability = .transientLocal)
    ("WARNING: Transient local subscription, but publisher is " ++
      durabilityPolicyStr pub.durability ++ ";")
    (pub.durability = .volatileLocal ∧ subDurabilityUnknown sub)
    ("WARNING: Volatile publisher, but subscription is " ++
      durabilityPolicyStr sub.durability ++ ";")
    s
  -- Liveliness warnings
  let s := warnChain
    (pubLivelinessUnknown pub ∧ subLivelinessUnknown sub)
    ("WARNING: Publisher liveliness is " ++ livelinessPolicyStr pub.liveliness ++
      " and subscription liveliness is " ++ livelinessPolicyStr sub.liveliness ++ ";")
    (pubLivelinessUnknown pub ∧ sub.liveliness = .manualByTopic)
    ("WARNING: Subscription\x27s liveliness is manual by topic, but publisher\x27s is " ++
      livelinessPolicyStr pub.liveliness ++ ";")
    (pub.liveliness = .automatic ∧ subLivelinessUnknown sub)
    ("WARNING: Publisher\x27s liveliness is automatic, but subscription\x27s is " ++
      livelinessPolicyStr sub.liveliness ++ ";")
    s
  s

/-- The verdict/diagnostics core of `qos_profile_check_compatible` (qos.cpp):
evaluate all ERROR rules; only when the verdict is still OK, evaluate the
WARNING rules. -/
def checkCompat (pub sub : QoSProfile) : CheckState :=
  let s := checkErrors pub sub
  -- Only check for warnings if there are no errors
  if s.compatibility = .Ok then checkWarnings pub sub s else s

/-- `_append_to_buffer` (qos.cpp): writes at most `buffer_size - strnlen - 1`
characters of the message at the end of the NUL-terminated buffer. -/
def appendToBuffer (buffer : String) (buffer_size : Nat) (message : String) : String :=
  if buffer_size = 0 then buffer
  else
    let offset := min buffer.length buffer_size
    let write_size := buffer_size - offset
    if write_size = 0 then buffer
    else buffer ++ (String.mk (message.toList.take (write_size - 1)))

/-- The final content of a reason buffer of capacity `cap` after the function
cleared it (`reason[0] = '\0'`) and appended the given messages in order. -/
def bufferContent (cap : Nat) (msgs : List String) : String :=
  msgs.foldl (fun b m => appendToBuffer b cap m) ""

/-- `qos_profile_check_compatible` including its argument validation: the
`compatibility` out-pointer must be non-null, and a null `reason` buffer is
only allowed together with `reason_size = 0`.  The boolean flags model pointer
non-nullness.  (On a valid buffer `rcutils_vsnprintf` cannot fail, so the
append error path is unreachable and the function otherwise returns
`RMW_RET_OK`.) -/
def qos_profile_check_compatible (pub sub : QoSProfile)
    (compatibilityProvided reasonProvided : Bool) (reason_size : Nat) :
    RmwRet × Option CheckState :=
  if compatibilityProvided = false then (.InvalidArgument, none)
  else if reasonProvided = false ∧ reason_size ≠ 0 then (.InvalidArgument, none)
  else (.Ok, some (checkCompat pub sub))

/-- Disjunction of the seven ERROR-rule conditions of
`qos_profile_check_compatible`, in source order. -/
def hasErrorRule (pub sub : QoSProfile) : Prop :=
  (pub.reliability = .bestEffort ∧ sub.reliability = .reliable) ∨
  (pub.durability = .volatileLocal ∧ sub.durability = .transientLocal) ∨
  (pub.deadline = RMW_QOS_DEADLINE_DEFAULT ∧ sub.deadline ≠ RMW_QOS_DEADLINE_DEFAULT) ∨
  (pub.deadline ≠ RMW_QOS_DEADLINE_DEFAULT ∧ sub.deadline ≠ RMW_QOS_DEADLINE_DEFAULT ∧
    rmwTimeLt sub.deadline pub.deadline = true) ∨
  (pub.liveliness = .automatic ∧ sub.liveliness = .manualByTopic) ∨
  (pub.liveliness_lease_duration = RMW_QOS_LIVELINESS_LEASE_DURATION_DEFAULT ∧
    sub.liveliness_lease_duration ≠ RMW_QOS_LIVELINESS_LEASE_DURATION_DEFAULT) ∨
  (pub.liveliness_lease_duration ≠ RMW_QOS_LIVELINESS_LEASE_DURATION_DEFAULT ∧
    sub.liveliness_lease_duration ≠ RMW_QOS_LIVELINESS_LEASE_DURATION_DEFAULT ∧
    rmwTimeLt sub.liveliness_lease_duration pub.liveliness_lease_duration = true)

instance (pub sub : QoSProfile) : Decidable (hasErrorRule pub sub) := by
  unfold hasErrorRule; infer_instance

/-- Disjunction of the nine WARNING-rule conditions of
`qos_profile_check_compatible`, in source order. -/
def hasWarningRule (pub sub : QoSProfile) : Prop :=
  (pubReliabilityUnknown pub ∧ subReliabilityUnknown sub) ∨
  (pubReliabilityUnknown pub ∧ sub.reliability = .reliable) ∨
  (pub.reliability = .bestEffort ∧ subReliabilityUnknown sub) ∨
  (pubDurabilityUnknown pub ∧ subDurabilityUnknown sub) ∨
  (pubDurabilityUnknown pub ∧ sub.durability = .transientLocal) ∨
  (pub.durability = .volatileLocal ∧ subDurabilityUnknown sub) ∨
  (pubLivelinessUnknown pub ∧ subLivelinessUnknown sub) ∨
  (pubLivelinessUnknown pub ∧ sub.liveliness = .manualByTopic) ∨
  (pub.liveliness = .automatic ∧ subLivelinessUnknown sub)

instance (pub sub : QoSProfile) : Decidable (hasWarningRule pub sub) := by
  unfold hasWarningRule; infer_instance

/-- The seven ERROR diagnostic message texts, in source order. -/
def errorMessages : List String :=
  ["ERROR: Best effort publisher and reliable subscription;",
   "ERROR: Volatile publisher and transient local subscription;",
   "ERROR: Subscription has a deadline, but publisher does not;",
   "ERROR: Subscription deadline is less than publisher deadline;",
   "ERROR: Publisher\x27s liveliness is automatic and subscription\x27s is manual by topic;",
   "ERROR: Subscription has a liveliness lease duration, but publisher does not;",
   "ERROR: Subscription liveliness lease duration is less than publisher;"]

theorem errRule_compatibility (cond : Prop) [Decidable cond] (msg : String) (s : CheckState) :
    (errRule cond msg s).compatibility = if cond then .Error else s.compatibility := by
  unfold errRule; split <;> rfl

theorem errRule_msgs (cond : Prop) [Decidable cond] (msg : String) (s : CheckState) :
    (errRule cond msg s).msgs = s.msgs ++ (if cond then [msg] else []) := by
  unfold errRule; split <;> simp

theorem warnChain_compatibility (c1 : Prop) [Decidable c1] (m1 : String)
    (c2 : Prop) [Decidable c2] (m2 : String) (c3 : Prop) [Decidable c3] (m3 : String)
    (s : CheckState) :
    (warnChain c1 m1 c2 m2 c3 m3 s).compatibility =
      if c1 ∨ c2 ∨ c3 then .Warning else s.compatibility := by
  unfold warnChain; split_ifs <;> first | rfl | tauto

theorem warnChain_msgs (c1 : Prop) [Decidable c1] (m1 : String)
    (c2 : Prop) [Decidable c2] (m2 : String) (c3 : Prop) [Decidable c3] (m3 : String)
    (s : CheckState) :
    (warnChain c1 m1 c2 m2 c3 m3 s).msgs =
      s.msgs ++ (if c1 then [m1] else if c2 then [m2] else if c3 then [m3] else []) := by
  unfold warnChain; split_ifs <;> simp

theorem ite_or_collapse {α : Type} (a b : Prop) [Decidable a] [Decidable b] (w e : α) :
    (if a then w else if b then w else e) = if a ∨ b then w else e := by
  split_ifs <;> tauto

theorem ite_iff_congr {α : Type} (a b : Prop) [Decidable a] [Decidable b] (w e : α)
    (h : a ↔ b) : (if a then w else e) = (if b then w else e) := by
  split_ifs <;> tauto

theorem or_rev_assoc7 (p1 p2 p3 p4 p5 p6 p7 : Prop) :
    ((((((p7 ∨ p6) ∨ p5) ∨ p4) ∨ p3) ∨ p2) ∨ p1) ↔
      (p1 ∨ p2 ∨ p3 ∨ p4 ∨ p5 ∨ p6 ∨ p7) := by
  tauto

theorem or_chain_shape (r1 r2 r3 d1 d2 d3 l1 l2 l3 : Prop) :
    (((l1 ∨ l2 ∨ l3) ∨ (d1 ∨ d2 ∨ d3)) ∨ (r1 ∨ r2 ∨ r3)) ↔
      (r1 ∨ r2 ∨ r3 ∨ d1 ∨ d2 ∨ d3 ∨ l1 ∨ l2 ∨ l3) := by
  tauto

theorem checkErrors_compatibility (pub sub : QoSProfile) :
    (checkErrors pub sub).compatibility =
      if hasErrorRule pub sub then .Error else .Ok := by
  unfold checkErrors
  simp only [errRule_compatibility]
  rw [ite_or_collapse, ite_or_collapse, ite_or_collapse, ite_or_collapse, ite_or_collapse,
    ite_or_collapse]
  exact ite_iff_congr _ _ _ _ (or_rev_assoc7 _ _ _ _ _ _ _)

theorem checkErrors_msgs_nil (pub sub : QoSProfile) (h : ¬ hasErrorRule pub sub) :
    (checkErrors pub sub).msgs = [] := by
  unfold hasErrorRule at h
  push_neg at h
  unfold checkErrors
  simp only [errRule_msgs]
  split_ifs <;> simp_all

theorem mem_ite_singleton {α : Type} {m x : α} {c : Prop} [Decidable c]
    (h : m ∈ (if c then [x] else [])) : m = x := by
  split at h <;> simp_all

theorem checkErrors_msgs_subset (pub sub : QoSProfile) :
    ∀ m ∈ (checkErrors pub sub).msgs, m ∈ errorMessages := by
  intro m hm
  unfold checkErrors at hm
  simp only [errRule_msgs] at hm
  simp only [List.append_assoc, List.mem_append, List.nil_append] at hm
  rcases hm with h | h | h | h | h | h | h <;> rw [mem_ite_singleton h] <;> decide

theorem checkWarnings_compatibility (pub sub : QoSProfile) (s : CheckState) :
    (checkWarnings pub sub s).compatibility =
      if hasWarningRule pub sub then .Warning else s.compatibility := by
  unfold checkWarnings
  simp only [warnChain_compatibility]
  rw [ite_or_collapse, ite_or_collapse]
  exact ite_iff_congr _ _ _ _ (or_chain_shape _ _ _ _ _ _ _ _ _)

theorem checkErrors_msgs_of_no_error (pub sub : QoSProfile) (h : ¬ hasErrorRule pub sub) :
    (checkErrors pub sub).msgs = [] := checkErrors_msgs_nil pub sub h

/-- The nine WARNING diagnostic messages of `qos_profile_check_compatible`,
instantiated at the given profiles, in source order. -/
def warningMessages (pub sub : QoSProfile) : List String :=
  ["WARNING: Publisher reliability is " ++ reliabilityPolicyStr pub.reliability ++
      " and subscription reliability is " ++ reliabilityPolicyStr sub.reliability ++ ";",
   "WARNING: Reliable subscription, but publisher is " ++
      reliabilityPolicyStr pub.reliability ++ ";",
   "WARNING: Best effort publisher, but subscription is " ++
      reliabilityPolicyStr sub.reliability ++ ";",
   "WARNING: Publisher durabilty is " ++ durabilityPolicyStr pub.durability ++
      " and subscription durability is " ++ durabilityPolicyStr sub.durability ++ ";",
   "WARNING: Transient local subscription, but publisher is " ++
      durabilityPolicyStr pub.durability ++ ";",
   "WARNING: Volatile publisher, but subscription is " ++
      durabilityPolicyStr sub.durability ++ ";",
   "WARNING: Publisher liveliness is " ++ livelinessPolicyStr pub.liveliness ++
      " and subscription liveliness is " ++ livelinessPolicyStr sub.liveliness ++ ";",
   "WARNING: Subscription\x27s liveliness is manual by topic, but publisher\x27s is " ++
      livelinessPolicyStr pub.liveliness ++ ";",
   "WARNING: Publisher\x27s liveliness is automatic, but subscription\x27s is " ++
      livelinessPolicyStr sub.liveliness ++ ";"]

theorem mem_ite_triple {α : Type} {m x y z : α} {c1 c2 c3 : Prop}
    [Decidable c1] [Decidable c2] [Decidable c3]
    (h : m ∈ (if c1 then [x] else if c2 then [y] else if c3 then [z] else [])) :
    m = x ∨ m = y ∨ m = z := by
  split_ifs at h <;> simp_all

theorem checkWarnings_msgs_subset (pub sub : QoSProfile) (s : CheckState) :
    ∀ m ∈ (checkWarnings pub sub s).msgs, m ∈ s.msgs ∨ m ∈ warningMessages pub sub := by
  intro m hm
  unfold checkWarnings at hm
  simp only [warnChain_msgs, List.append_assoc, List.mem_append] at hm
  rcases hm with h | h | h | h
  · exact Or.inl h
  all_goals
    refine Or.inr ?_
    rcases mem_ite_triple h with rfl | rfl | rfl <;> simp [warningMessages]

theorem checkWarnings_msgs_of_no_warning (pub sub : QoSProfile) (s : CheckState)
    (h : ¬ hasWarningRule pub sub) :
    (checkWarnings pub sub s).msgs = s.msgs := by
  unfold hasWarningRule at h
  push_neg at h
  unfold checkWarnings
  simp only [warnChain_msgs]
  split_ifs <;> simp_all

theorem checkCompat_eq (pub sub : QoSProfile) :
    checkCompat pub sub =
      if hasErrorRule pub sub then checkErrors pub sub
      else checkWarnings pub sub (checkErrors pub sub) := by
  unfold checkCompat
  by_cases h : hasErrorRule pub sub <;>
    simp [checkErrors_compatibility, h]

theorem mem_ite_singleton_iff {α : Type} {m x : α} {c : Prop} [Decidable c] :
    (m ∈ (if c then [x] else [])) ↔ (c ∧ m = x) := by
  split <;> simp_all

theorem checkErrors_mem_deadline_missing (pub sub : QoSProfile) :
    ("ERROR: Subscription has a deadline, but publisher does not;" ∈ (checkErrors pub sub).msgs)
      ↔ (pub.deadline = RMW_QOS_DEADLINE_DEFAULT ∧ sub.deadline ≠ RMW_QOS_DEADLINE_DEFAULT) := by
  unfold checkErrors
  simp only [errRule_msgs, List.append_assoc, List.nil_append, List.mem_append,
    mem_ite_singleton_iff]
  constructor
  · intro h
    rcases h with ⟨_, h⟩ | ⟨_, h⟩ | ⟨hc, _⟩ | ⟨_, h⟩ | ⟨_, h⟩ | ⟨_, h⟩ | ⟨_, h⟩
    · exact absurd h (by decide)
    · exact absurd h (by decide)
    · exact hc
    · exact absurd h (by decide)
    · exact absurd h (by decide)
    · exact absurd h (by decide)
    · exact absurd h (by decide)
  · intro hc
    exact Or.inr (Or.inr (Or.inl ⟨hc, trivial⟩))

theorem checkErrors_mem_deadline_tighter (pub sub : QoSProfile) :
    ("ERROR: Subscription deadline is less than publisher deadline;" ∈ (checkErrors pub sub).msgs)
      ↔ (pub.deadline ≠ RMW_QOS_DEADLINE_DEFAULT ∧ sub.deadline ≠ RMW_QOS_DEADLINE_DEFAULT ∧
          rmwTimeLt sub.deadline pub.deadline = true) := by
  unfold checkErrors
  simp only [errRule_msgs, List.append_assoc, List.nil_append, List.mem_append,
    mem_ite_singleton_iff]
  constructor
  · intro h
    rcases h with ⟨_, h⟩ | ⟨_, h⟩ | ⟨_, h⟩ | ⟨hc, _⟩ | ⟨_, h⟩ | ⟨_, h⟩ | ⟨_, h⟩
    · exact absurd h (by decide)
    · exact absurd h (by decide)
    · exact absurd h (by decide)
    · exact hc
    · exact absurd h (by decide)
    · exact absurd h (by decide)
    · exact absurd h (by decide)
  · intro hc
    exact Or.inr (Or.inr (Or.inr (Or.inl ⟨hc, trivial⟩)))

theorem warningMessages_ne_deadline_missing (pub sub : QoSProfile) :
    ∀ m ∈ warningMessages pub sub,
      m ≠ "ERROR: Subscription has a deadline, but publisher does not;" := by
  intro m hm
  unfold warningMessages at hm
  simp only [List.mem_cons, List.not_mem_nil, or_false] at hm
  rcases hm with rfl | rfl | rfl | rfl | rfl | rfl | rfl | rfl | rfl
  · cases pub.reliability <;> cases sub.reliability <;> decide
  · cases pub.reliability <;> decide
  · cases sub.reliability <;> decide
  · cases pub.durability <;> cases sub.durability <;> decide
  · cases pub.durability <;> decide
  · cases sub.durability <;> decide
  · cases pub.liveliness <;> cases sub.liveliness <;> decide
  · cases pub.liveliness <;> decide
  · cases sub.liveliness <;> decide

theorem warningMessages_ne_deadline_tighter (pub sub : QoSProfile) :
    ∀ m ∈ warningMessages pub sub,
      m ≠ "ERROR: Subscription deadline is less than publisher deadline;" := by
  intro m hm
  unfold warningMessages at hm
  simp only [List.mem_cons, List.not_mem_nil, or_false] at hm
  rcases hm with rfl | rfl | rfl | rfl | rfl | rfl | rfl | rfl | rfl
  · cases pub.reliability <;> cases sub.reliability <;> decide
  · cases pub.reliability <;> decide
  · cases sub.reliability <;> decide
  · cases pub.durability <;> cases sub.durability <;> decide
  · cases pub.durability <;> decide
  · cases sub.durability <;> decide
  · cases pub.liveliness <;> cases sub.liveliness <;> decide
  · cases pub.liveliness <;> decide
  · cases sub.liveliness <;> decide

/-- Claim C3: for every pair of publisher/subscription QoS profiles,
`qos_profile_check_compatible` evaluates the WARNING-class rules if and only
if no ERROR-class rule was raised (the verdict is ERROR exactly on an error
rule, WARNING exactly on a warning rule with no error rule, and when an error
rule fires every appended diagnostic is an ERROR message), and when neither
an ERROR nor a WARNING rule applies it reports the OK verdict with an empty
reason string in the caller's buffer. -/
theorem qos_check_compatible_warning_iff_no_error (pub sub : QoSProfile) :
    ((checkCompat pub sub).compatibility =
      (if hasErrorRule pub sub then .Error
       else if hasWarningRule pub sub then .Warning else .Ok)) ∧
    (hasErrorRule pub sub → ∀ m ∈ (checkCompat pub sub).msgs, m ∈ errorMessages) ∧
    (¬ hasErrorRule pub sub → ¬ hasWarningRule pub sub →
      (checkCompat pub sub).compatibility = .Ok ∧ (checkCompat pub sub).msgs = [] ∧
      ∀ cap, bufferContent cap (checkCompat pub sub).msgs = "") := by
  refine ⟨?_, ?_, ?_⟩
  · rw [checkCompat_eq]
    by_cases hE : hasErrorRule pub sub
    · rw [if_pos hE, if_pos hE, checkErrors_compatibility, if_pos hE]
    · rw [if_neg hE, if_neg hE, checkWarnings_compatibility, checkErrors_compatibility,
        if_neg hE]
  · intro hE m hm
    rw [checkCompat_eq, if_pos hE] at hm
    exact checkErrors_msgs_subset pub sub m hm
  · intro hE hW
    have hmsgs : (checkCompat pub sub).msgs = [] := by
      rw [checkCompat_eq, if_neg hE, checkWarnings_msgs_of_no_warning pub sub _ hW,
        checkErrors_msgs_of_no_error pub sub hE]
    refine ⟨?_, hmsgs, ?_⟩
    · rw [checkCompat_eq, if_neg hE, checkWarnings_compatibility, if_neg hW,
        checkErrors_compatibility, if_neg hE]
    · intro cap
      rw [hmsgs]
      rfl

/-- A fully compatible profile pair: no error and no warning rule applies. -/
def compatExamplePub : QoSProfile :=
  ⟨0, 10, .reliable, .transientLocal, ⟨0, 0⟩, ⟨0, 0⟩, .automatic, ⟨0, 0⟩, false⟩

/-- Subscription side of the fully compatible example pair. -/
def compatExampleSub : QoSProfile :=
  ⟨0, 10, .reliable, .transientLocal, ⟨0, 0⟩, ⟨0, 0⟩, .automatic, ⟨0, 0⟩, false⟩

/-- Witness for C3 at a concrete compatible pair: OK verdict, empty buffer. -/
theorem qos_check_compatible_warning_iff_no_error_witness :
    (checkCompat compatExamplePub compatExampleSub).compatibility = .Ok ∧
    bufferContent 100 (checkCompat compatExamplePub compatExampleSub).msgs = "" := by
  have h := (qos_check_compatible_warning_iff_no_error compatExamplePub compatExampleSub).2.2
    (by decide) (by decide)
  exact ⟨h.1, h.2.2 100⟩

/-- Claim C4: for every pair of QoS profiles carrying an UNKNOWN reliability,
durability, or liveliness value, with the required output arguments non-null,
`qos_profile_check_compatible` succeeds as a function call (returns
`RMW_RET_OK` and produces a result): unknown values only influence the
reported compatibility verdict, never the function result. -/
theorem qos_check_compatible_no_error_on_unknown (pub sub : QoSProfile) (reason_size : Nat)
    (h : pub.reliability = .unknown ∨ sub.reliability = .unknown ∨
      pub.durability = .unknown ∨ sub.durability = .unknown ∨
      pub.liveliness = .unknown ∨ sub.liveliness = .unknown) :
    qos_profile_check_compatible pub sub true true reason_size =
      (RmwRet.Ok, some (checkCompat pub sub)) := by
  unfold qos_profile_check_compatible
  simp

/-- Publisher profile with unknown reliability. -/
def unknownExamplePub : QoSProfile :=
  ⟨0, 10, .unknown, .volatileLocal, ⟨0, 0⟩, ⟨0, 0⟩, .automatic, ⟨0, 0⟩, false⟩

/-- Subscription profile with unknown liveliness. -/
def unknownExampleSub : QoSProfile :=
  ⟨0, 10, .reliable, .volatileLocal, ⟨0, 0⟩, ⟨0, 0⟩, .unknown, ⟨0, 0⟩, false⟩

/-- Witness for C4 at a concrete profile pair with unknown values. -/
theorem qos_check_compatible_no_error_on_unknown_witness :
    qos_profile_check_compatible unknownExamplePub unknownExampleSub true true 2048 =
      (RmwRet.Ok, some (checkCompat unknownExamplePub unknownExampleSub)) :=
  qos_check_compatible_no_error_on_unknown unknownExamplePub unknownExampleSub 2048 (by decide)

/-- Claim C5: `qos_profile_check_compatible` reports a deadline ERROR exactly
when (a) the publisher deadline equals the unset-default sentinel and the
subscription deadline does not, or (b) both differ from the sentinel and the
subscription deadline is strictly smaller under (sec, nsec) lexicographic
comparison; and in either case the verdict is ERROR.  Sentinel detection is by
explicit equality with `RMW_QOS_DEADLINE_DEFAULT`. -/
theorem qos_check_compatible_deadline_error_iff (pub sub : QoSProfile) :
    ((("ERROR: Subscription has a deadline, but publisher does not;" ∈
        (checkCompat pub sub).msgs) ∨
      ("ERROR: Subscription deadline is less than publisher deadline;" ∈
        (checkCompat pub sub).msgs)) ↔
      ((pub.deadline = RMW_QOS_DEADLINE_DEFAULT ∧ sub.deadline ≠ RMW_QOS_DEADLINE_DEFAULT) ∨
       (pub.deadline ≠ RMW_QOS_DEADLINE_DEFAULT ∧ sub.deadline ≠ RMW_QOS_DEADLINE_DEFAULT ∧
         rmwTimeLt sub.deadline pub.deadline = true))) ∧
    (((pub.deadline = RMW_QOS_DEADLINE_DEFAULT ∧ sub.deadline ≠ RMW_QOS_DEADLINE_DEFAULT) ∨
      (pub.deadline ≠ RMW_QOS_DEADLINE_DEFAULT ∧ sub.deadline ≠ RMW_QOS_DEADLINE_DEFAULT ∧
        rmwTimeLt sub.deadline pub.deadline = true)) →
      (checkCompat pub sub).compatibility = .Error) := by
  have hmem1 : ("ERROR: Subscription has a deadline, but publisher does not;" ∈
      (checkCompat pub sub).msgs) ↔
      (pub.deadline = RMW_QOS_DEADLINE_DEFAULT ∧ sub.deadline ≠ RMW_QOS_DEADLINE_DEFAULT) := by
    rw [checkCompat_eq]
    by_cases hE : hasErrorRule pub sub
    · rw [if_pos hE]
      exact checkErrors_mem_deadline_missing pub sub
    · rw [if_neg hE]
      constructor
      · intro h
        rcases checkWarnings_msgs_subset pub sub _ _ h with h' | h'
        · rw [checkErrors_msgs_of_no_error pub sub hE] at h'
          cases h'
        · exact absurd rfl (warningMessages_ne_deadline_missing pub sub _ h')
      · intro hc
        exact absurd (Or.inr (Or.inr (Or.inl hc))) hE
  have hmem2 : ("ERROR: Subscription deadline is less than publisher deadline;" ∈
      (checkCompat pub sub).msgs) ↔
      (pub.deadline ≠ RMW_QOS_DEADLINE_DEFAULT ∧ sub.deadline ≠ RMW_QOS_DEADLINE_DEFAULT ∧
        rmwTimeLt sub.deadline pub.deadline = true) := by
    rw [checkCompat_eq]
    by_cases hE : hasErrorRule pub sub
    · rw [if_pos hE]
      exact checkErrors_mem_deadline_tighter pub sub
    · rw [if_neg hE]
      constructor
      · intro h
        rcases checkWarnings_msgs_subset pub sub _ _ h with h' | h'
        · rw [checkErrors_msgs_of_no_error pub sub hE] at h'
          cases h'
        · exact absurd rfl (warningMessages_ne_deadline_tighter pub sub _ h')
      · intro hc
        exact absurd (Or.inr (Or.inr (Or.inr (Or.inl hc)))) hE
  refine ⟨or_congr hmem1 hmem2, ?_⟩
  intro hc
  have hE : hasErrorRule pub sub := by
    rcases hc with hc | hc
    · exact Or.inr (Or.inr (Or.inl hc))
    · exact Or.inr (Or.inr (Or.inr (Or.inl hc)))
  rw [checkCompat_eq, if_pos hE, checkErrors_compatibility, if_pos hE]

/-- Publisher with deadline (1 s, 1 ns). -/
def deadlineExamplePub : QoSProfile :=
  ⟨0, 10, .reliable, .transientLocal, ⟨1, 1⟩, ⟨0, 0⟩, .automatic, ⟨0, 0⟩, false⟩

/-- Subscription with the tighter deadline (1 s, 0 ns). -/
def deadlineExampleSub : QoSProfile :=
  ⟨0, 10, .reliable, .transientLocal, ⟨1, 0⟩, ⟨0, 0⟩, .automatic, ⟨0, 0⟩, false⟩

/-- Witness for C5 at pub deadline {1,1} vs sub deadline {1,0}: deadline error
reported, ERROR verdict. -/
theorem qos_check_compatible_deadline_error_iff_witness :
    (("ERROR: Subscription has a deadline, but publisher does not;" ∈
        (checkCompat deadlineExamplePub deadlineExampleSub).msgs) ∨
     ("ERROR: Subscription deadline is less than publisher deadline;" ∈
        (checkCompat deadlineExamplePub deadlineExampleSub).msgs)) ∧
    (checkCompat deadlineExamplePub deadlineExampleSub).compatibility = .Error := by
  have h := qos_check_compatible_deadline_error_iff deadlineExamplePub deadlineExampleSub
  exact ⟨h.1.mpr (Or.inr (by decide)), h.2 (Or.inr (by decide))⟩

/-- The accumulator scanned over `publishers_info` by
`qos_profile_get_best_available_for_subscription` (qos.cpp). -/
structure SubscriptionScan where
  number_of_reliable : Nat
  number_of_transient_local : Nat
  number_of_manual_by_topic : Nat
  use_default_deadline : Bool
  largest_deadline : RmwTime
  use_default_liveliness_lease_duration : Bool
  largest_liveliness_lease_duration : RmwTime
deriving DecidableEq, Repr

/-- One iteration of the scan loop of
`qos_profile_get_best_available_for_subscription`. -/
def subscriptionScanStep (acc : SubscriptionScan) (profile : QoSProfile) : SubscriptionScan :=
  let acc := if profile.reliability = .reliable then
    { acc with number_of_reliable := acc.number_of_reliable + 1 } else acc
  let acc := if profile.durability = .transientLocal then
    { acc with number_of_transient_local := acc.number_of_transient_local + 1 } else acc
  let acc := if profile.liveliness = .manualByTopic then
    { acc with number_of_manual_by_topic := acc.number_of_manual_by_topic + 1 } else acc
  let acc := if profile.deadline ≠ RMW_QOS_DEADLINE_DEFAULT then
    { acc with
      use_default_deadline := false
      largest_deadline := if rmwTimeLt acc.largest_deadline profile.deadline = true then
        profile.deadline else acc.largest_deadline }
    else acc
  let acc := if profile.liveliness_lease_duration ≠
      RMW_QOS_LIVELINESS_LEASE_DURATION_DEFAULT then
    { acc with
      use_default_liveliness_lease_duration := false
      largest_liveliness_lease_duration :=
        if rmwTimeLt acc.largest_liveliness_lease_duration
            profile.liveliness_lease_duration = true then
          profile.liveliness_lease_duration else acc.largest_liveliness_lease_duration }
    else acc
  acc

/-- The conditional field assignments of
`qos_profile_get_best_available_for_subscription` performed after the scan
loop, with `size` standing for `publishers_info->size`. -/
def applySubscriptionResolution (acc : SubscriptionScan) (size : Nat)
    (subscription_profile : QoSProfile) : QoSProfile :=
  let p := subscription_profile
  let p := if p.reliability = .bestAvailable then
    { p with reliability :=
        if acc.number_of_reliable = size then .reliable else .bestEffort }
    else p
  let p := if p.durability = .bestAvailable then
    { p with durability :=
        if acc.number_of_transient_local = size then .transientLocal
        else .volatileLocal }
    else p
  let p := if p.liveliness = .bestAvailable then
    { p with liveliness :=
        if acc.number_of_manual_by_topic = size then .manualByTopic
        else .automatic }
    else p
  let p := if RMW_QOS_DEADLINE_BEST_AVAILABLE = p.deadline then
    { p with deadline :=
        if acc.use_default_deadline = true then RMW_QOS_DEADLINE_DEFAULT
        else acc.largest_deadline }
    else p
  let p := if RMW_QOS_LIVELINESS_LEASE_DURATION_BEST_AVAILABLE =
      p.liveliness_lease_duration then
    { p with liveliness_lease_duration :=
        if acc.use_default_liveliness_lease_duration = true then
          RMW_QOS_LIVELINESS_LEASE_DURATION_DEFAULT
        else acc.largest_liveliness_lease_duration }
    else p
  p

/-- Core of `qos_profile_get_best_available_for_subscription` (qos.cpp),
given non-null arguments.  `publishers_info` is modelled by the list of QoS
profiles of the discovered publisher endpoints (the only field the function
reads): scan all peer profiles, then resolve the fields still marked
best-available. -/
def bestAvailableForSubscription (publishers_info : List QoSProfile)
    (subscription_profile : QoSProfile) : QoSProfile :=
  applySubscriptionResolution
    (publishers_info.foldl subscriptionScanStep ⟨0, 0, 0, true, ⟨0, 0⟩, true, ⟨0, 0⟩⟩)
    publishers_info.length subscription_profile

/-- `qos_profile_get_best_available_for_subscription` including its null
checks; `none` stands for a null pointer argument. -/
def qos_profile_get_best_available_for_subscription :
    Option (List QoSProfile) → Option QoSProfile → RmwRet × Option QoSProfile
  | none, sp => (.InvalidArgument, sp)
  | some _, none => (.InvalidArgument, none)
  | some infos, some sp => (.Ok, some (bestAvailableForSubscription infos sp))

/-- The accumulator scanned over `subscriptions_info` by
`qos_profile_get_best_available_for_publisher` (qos.cpp). -/
structure PublisherScan where
  use_manual_by_topic : Bool
  use_default_deadline : Bool
  smallest_deadline : RmwTime
  use_default_liveliness_lease_duration : Bool
  smallest_liveliness_lease_duration : RmwTime
deriving DecidableEq, Repr

/-- One iteration of the scan loop of
`qos_profile_get_best_available_for_publisher`. -/
def publisherScanStep (acc : PublisherScan) (profile : QoSProfile) : PublisherScan :=
  let acc := if profile.liveliness = .manualByTopic then
    { acc with use_manual_by_topic := true } else acc
  let acc := if profile.deadline ≠ RMW_QOS_DEADLINE_DEFAULT then
    { acc with
      use_default_deadline := false
      smallest_deadline := if rmwTimeLt profile.deadline acc.smallest_deadline = true then
        profile.deadline else acc.smallest_deadline }
    else acc
  let acc := if profile.liveliness_lease_duration ≠
      RMW_QOS_LIVELINESS_LEASE_DURATION_DEFAULT then
    { acc with
      use_default_liveliness_lease_duration := false
      smallest_liveliness_lease_duration :=
        if rmwTimeLt profile.liveliness_lease_duration
            acc.smallest_liveliness_lease_duration = true then
          profile.liveliness_lease_duration else acc.smallest_liveliness_lease_duration }
    else acc
  acc

/-- The conditional liveliness/deadline/lease assignments of
`qos_profile_get_best_available_for_publisher` performed after the scan
loop. -/
def applyPublisherResolution (acc : PublisherScan) (publisher_profile : QoSProfile) :
    QoSProfile :=
  let p := publisher_profile
  let p := if p.liveliness = .bestAvailable then
    { p with liveliness :=
        if acc.use_manual_by_topic = true then .manualByTopic else .automatic }
    else p
  let p := if RMW_QOS_DEADLINE_BEST_AVAILABLE = p.deadline then
    { p with deadline :=
        if acc.use_default_deadline = true then RMW_QOS_DEADLINE_DEFAULT
        else acc.smallest_deadline }
    else p
  let p := if RMW_QOS_LIVELINESS_LEASE_DURATION_BEST_AVAILABLE =
      p.liveliness_lease_duration then
    { p with liveliness_lease_duration :=
        if acc.use_default_liveliness_lease_duration = true then
          RMW_QOS_LIVELINESS_LEASE_DURATION_DEFAULT
        else acc.smallest_liveliness_lease_duration }
    else p
  p

/-- Core of `qos_profile_get_best_available_for_publisher` (qos.cpp), given
non-null arguments: first resolve reliability and durability (always to
reliable / transient local, the highest service level), then scan all peer
subscription profiles and resolve the remaining best-available fields. -/
def bestAvailableForPublisher (subscriptions_info : List QoSProfile)
    (publisher_profile : QoSProfile) : QoSProfile :=
  let p := publisher_profile
  -- Always use "reliable" reliability and "transient_local" durability
  let p := if p.reliability = .bestAvailable then { p with reliability := .reliable } else p
  let p := if p.durability = .bestAvailable then { p with durability := .transientLocal } else p
  applyPublisherResolution
    (subscriptions_info.foldl publisherScanStep
      ⟨false, true, RMW_DURATION_INFINITE, true, RMW_DURATION_INFINITE⟩)
    p

/-- `qos_profile_get_best_available_for_publisher` including its null
checks. -/
def qos_profile_get_best_available_for_publisher :
    Option (List QoSProfile) → Option QoSProfile → RmwRet × Option QoSProfile
  | none, pp => (.InvalidArgument, pp)
  | some _, none => (.InvalidArgument, none)
  | some infos, some pp => (.Ok, some (bestAvailableForPublisher infos pp))

/-- Claim C6: with zero discovered publishers and a subscription profile whose
reliability, durability, liveliness, deadline and liveliness lease duration
are all BEST_AVAILABLE, `qos_profile_get_best_available_for_subscription`
succeeds and resolves those fields to RELIABLE, TRANSIENT_LOCAL,
MANUAL_BY_TOPIC, the default (unset) deadline, and the default (unset) lease
duration; all other profile fields are untouched. -/
theorem best_available_subscription_zero_peers (p : QoSProfile) :
    qos_profile_get_best_available_for_subscription (some [])
      (some { p with
        reliability := .bestAvailable
        durability := .bestAvailable
        liveliness := .bestAvailable
        deadline := RMW_QOS_DEADLINE_BEST_AVAILABLE
        liveliness_lease_duration := RMW_QOS_LIVELINESS_LEASE_DURATION_BEST_AVAILABLE }) =
    (.Ok, some { p with
        reliability := .reliable
        durability := .transientLocal
        liveliness := .manualByTopic
        deadline := RMW_QOS_DEADLINE_DEFAULT
        liveliness_lease_duration := RMW_QOS_LIVELINESS_LEASE_DURATION_DEFAULT }) := rfl

theorem bestAvailableForSubscription_frame (infos : List QoSProfile) (p : QoSProfile) :
    ((p.reliability ≠ .bestAvailable →
      (bestAvailableForSubscription infos p).reliability = p.reliability) ∧
     (p.durability ≠ .bestAvailable →
      (bestAvailableForSubscription infos p).durability = p.durability) ∧
     (p.liveliness ≠ .bestAvailable →
      (bestAvailableForSubscription infos p).liveliness = p.liveliness) ∧
     (p.deadline ≠ RMW_QOS_DEADLINE_BEST_AVAILABLE →
      (bestAvailableForSubscription infos p).deadline = p.deadline) ∧
     (p.liveliness_lease_duration ≠ RMW_QOS_LIVELINESS_LEASE_DURATION_BEST_AVAILABLE →
      (bestAvailableForSubscription infos p).liveliness_lease_duration =
        p.liveliness_lease_duration) ∧
     (bestAvailableForSubscription infos p).history = p.history ∧
     (bestAvailableForSubscription infos p).depth = p.depth ∧
     (bestAvailableForSubscription infos p).lifespan = p.lifespan ∧
     (bestAvailableForSubscription infos p).avoid_ros_namespace_conventions =
       p.avoid_ros_namespace_conventions) := by
  by_cases h1 : p.reliability = .bestAvailable <;>
  by_cases h2 : p.durability = .bestAvailable <;>
  by_cases h3 : p.liveliness = .bestAvailable <;>
  by_cases h4 : RMW_QOS_DEADLINE_BEST_AVAILABLE = p.deadline <;>
  by_cases h5 : RMW_QOS_LIVELINESS_LEASE_DURATION_BEST_AVAILABLE =
    p.liveliness_lease_duration <;>
  simp_all [bestAvailableForSubscription, applySubscriptionResolution]

theorem bestAvailableForPublisher_frame (infos : List QoSProfile) (p : QoSProfile) :
    ((p.reliability ≠ .bestAvailable →
      (bestAvailableForPublisher infos p).reliability = p.reliability) ∧
     (p.durability ≠ .bestAvailable →
      (bestAvailableForPublisher infos p).durability = p.durability) ∧
     (p.liveliness ≠ .bestAvailable →
      (bestAvailableForPublisher infos p).liveliness = p.liveliness) ∧
     (p.deadline ≠ RMW_QOS_DEADLINE_BEST_AVAILABLE →
      (bestAvailableForPublisher infos p).deadline = p.deadline) ∧
     (p.liveliness_lease_duration ≠ RMW_QOS_LIVELINESS_LEASE_DURATION_BEST_AVAILABLE →
      (bestAvailableForPublisher infos p).liveliness_lease_duration =
        p.liveliness_lease_duration) ∧
     (bestAvailableForPublisher infos p).history = p.history ∧
     (bestAvailableForPublisher infos p).depth = p.depth ∧
     (bestAvailableForPublisher infos p).lifespan = p.lifespan ∧
     (bestAvailableForPublisher infos p).avoid_ros_namespace_conventions =
       p.avoid_ros_namespace_conventions) := by
  by_cases h1 : p.reliability = .bestAvailable <;>
  by_cases h2 : p.durability = .bestAvailable <;>
  by_cases h3 : p.liveliness = .bestAvailable <;>
  by_cases h4 : RMW_QOS_DEADLINE_BEST_AVAILABLE = p.deadline <;>
  by_cases h5 : RMW_QOS_LIVELINESS_LEASE_DURATION_BEST_AVAILABLE =
    p.liveliness_lease_duration <;>
  simp_all [bestAvailableForPublisher, applyPublisherResolution]

/-- Claim C7: for every peer-endpoint list and every profile, the
best-available resolvers modify only the profile fields currently holding the
BEST_AVAILABLE sentinel; every field with a concrete value is returned
unchanged, and the carried fields (history, depth, lifespan,
avoid_ros_namespace_conventions) are never modified, regardless of what the
peers declare. -/
theorem best_available_resolvers_frame (infos : List QoSProfile) (p : QoSProfile) :
    (qos_profile_get_best_available_for_subscription (some infos) (some p) =
      (.Ok, some (bestAvailableForSubscription infos p))) ∧
    ((p.reliability ≠ .bestAvailable →
      (bestAvailableForSubscription infos p).reliability = p.reliability) ∧
     (p.durability ≠ .bestAvailable →
      (bestAvailableForSubscription infos p).durability = p.durability) ∧
     (p.liveliness ≠ .bestAvailable →
      (bestAvailableForSubscription infos p).liveliness = p.liveliness) ∧
     (p.deadline ≠ RMW_QOS_DEADLINE_BEST_AVAILABLE →
      (bestAvailableForSubscription infos p).deadline = p.deadline) ∧
     (p.liveliness_lease_duration ≠ RMW_QOS_LIVELINESS_LEASE_DURATION_BEST_AVAILABLE →
      (bestAvailableForSubscription infos p).liveliness_lease_duration =
        p.liveliness_lease_duration) ∧
     (bestAvailableForSubscription infos p).history = p.history ∧
     (bestAvailableForSubscription infos p).depth = p.depth ∧
     (bestAvailableForSubscription infos p).lifespan = p.lifespan ∧
     (bestAvailableForSubscription infos p).avoid_ros_namespace_conventions =
       p.avoid_ros_namespace_conventions) ∧
    (qos_profile_get_best_available_for_publisher (some infos) (some p) =
      (.Ok, some (bestAvailableForPublisher infos p))) ∧
    ((p.reliability ≠ .bestAvailable →
      (bestAvailableForPublisher infos p).reliability = p.reliability) ∧
     (p.durability ≠ .bestAvailable →
      (bestAvailableForPublisher infos p).durability = p.durability) ∧
     (p.liveliness ≠ .bestAvailable →
      (bestAvailableForPublisher infos p).liveliness = p.liveliness) ∧
     (p.deadline ≠ RMW_QOS_DEADLINE_BEST_AVAILABLE →
      (bestAvailableForPublisher infos p).deadline = p.deadline) ∧
     (p.liveliness_lease_duration ≠ RMW_QOS_LIVELINESS_LEASE_DURATION_BEST_AVAILABLE →
      (bestAvailableForPublisher infos p).liveliness_lease_duration =
        p.liveliness_lease_duration) ∧
     (bestAvailableForPublisher infos p).history = p.history ∧
     (bestAvailableForPublisher infos p).depth = p.depth ∧
     (bestAvailableForPublisher infos p).lifespan = p.lifespan ∧
     (bestAvailableForPublisher infos p).avoid_ros_namespace_conventions =
       p.avoid_ros_namespace_conventions) :=
  ⟨rfl, bestAvailableForSubscription_frame infos p, rfl,
    bestAvailableForPublisher_frame infos p⟩

/-- Witness for C7 at one concrete peer and a fully concrete profile: the
concretely set reliability and deadline are returned unchanged by both
resolvers. -/
theorem best_available_resolvers_frame_witness :
    (bestAvailableForSubscription [deadlineExamplePub] compatExampleSub).reliability =
      .reliable ∧
    (bestAvailableForSubscription [deadlineExamplePub] compatExampleSub).deadline = ⟨0, 0⟩ ∧
    (bestAvailableForPublisher [deadlineExamplePub] compatExampleSub).reliability =
      .reliable ∧
    (bestAvailableForPublisher [deadlineExamplePub] compatExampleSub).deadline = ⟨0, 0⟩ := by
  have h := best_available_resolvers_frame [deadlineExamplePub] compatExampleSub
  exact ⟨h.2.1.1 (by decide), h.2.1.2.2.2.1 (by decide), h.2.2.2.1 (by decide),
    h.2.2.2.2.2.2.1 (by decide)⟩

/-- Model of `rmw_gid_t`: 24-byte middleware-assigned entity identifier.  The
code under study only stores, compares and copies gids, so they are modelled
abstractly by naturals (any type with decidable equality would do). -/
abbrev Gid := Nat

/-- `std::map` lookup on an association-list model. -/
def mapFind {κ ν : Type} [DecidableEq κ] (k : κ) : List (κ × ν) → Option ν
  | [] => none
  | (k', v) :: rest => if k' = k then some v else mapFind k rest

/-- `std::map::operator[]` default-initialisation when the key is absent
(`initialize_*` helpers in topic_cache.cpp; `emplace` in graph_cache.cpp). -/
def mapInsertIfAbsent {κ ν : Type} [DecidableEq κ] (k : κ) (v : ν) (m : List (κ × ν)) :
    List (κ × ν) :=
  match mapFind k m with
  | some _ => m
  | none => m ++ [(k, v)]

/-- In-place modification of the value stored at a key (no-op if absent). -/
def mapUpdate {κ ν : Type} [DecidableEq κ] (k : κ) (f : ν → ν) : List (κ × ν) → List (κ × ν)
  | [] => []
  | (k', v) :: rest => if k' = k then (k', f v) :: rest else (k', v) :: mapUpdate k f rest

/-- `std::map::operator[] = v`: overwrite if present, insert otherwise. -/
def mapSet {κ ν : Type} [DecidableEq κ] (k : κ) (v : ν) (m : List (κ × ν)) : List (κ × ν) :=
  match mapFind k m with
  | some _ => mapUpdate k (fun _ => v) m
  | none => m ++ [(k, v)]

/-- `std::map::erase(key)`. -/
def mapErase {κ ν : Type} [DecidableEq κ] (k : κ) : List (κ × ν) → List (κ × ν)
  | [] => []
  | (k', v) :: rest => if k' = k then rest else (k', v) :: mapErase k rest

/-- `vec.erase(std::find(vec.begin(), vec.end(), a))`: erases the first
occurrence when present; when absent, `erase(end())` is undefined behaviour,
modelled as `none`. -/
def vecEraseFound {α : Type} [DecidableEq α] (a : α) (l : List α) : Option (List α) :=
  if a ∈ l then some (l.erase a) else none

/-- `TopicCache::TopicToTypes`: topic name → vector of type names. -/
abbrev TopicToTypes := List (String × List String)

/-- `TopicCache::NamespaceNamePair`. -/
abbrev NamespaceNamePair := String × String

/-- `TopicCache::NodeTopicMap`: (namespace, name) → TopicToTypes. -/
abbrev NodeTopicMap := List (NamespaceNamePair × TopicToTypes)

/-- `TopicCache::ParticipantNodeMap`: participant gid → NodeTopicMap. -/
abbrev ParticipantNodeMap := List (Gid × NodeTopicMap)

instance : DecidableEq TopicToTypes := inferInstance

instance : DecidableEq NodeTopicMap := inferInstance

instance : DecidableEq ParticipantNodeMap := inferInstance

/-- The two maps owned by `TopicCache` (topic_cache.hpp). -/
structure TopicCache where
  topic_to_types_ : TopicToTypes
  participant_to_nodes_to_topics_ : ParticipantNodeMap
deriving DecidableEq, Repr

/-- `TopicCache::get_topic_to_types`. -/
def TopicCache.get_topic_to_types (c : TopicCache) : TopicToTypes :=
  c.topic_to_types_

/-- `TopicCache::get_participant_to_nodes_to_topics`. -/
def TopicCache.get_participant_to_nodes_to_topics (c : TopicCache) : ParticipantNodeMap :=
  c.participant_to_nodes_to_topics_

/-- `TopicCache::add_topic` (topic_cache.cpp): default-initialise the nested
entries, then push the type name into both multimaps.  Always returns true. -/
def TopicCache.add_topic (c : TopicCache) (gid : Gid)
    (namespace_ node_name topic_name type_name : String) : Bool × TopicCache :=
  let pair : NamespaceNamePair := (namespace_, node_name)
  let t := mapInsertIfAbsent topic_name [] c.topic_to_types_
  let p := mapInsertIfAbsent gid [] c.participant_to_nodes_to_topics_
  let p := mapUpdate gid (fun m => mapInsertIfAbsent pair ([] : TopicToTypes) m) p
  let p := mapUpdate gid (mapUpdate pair (fun tt => mapInsertIfAbsent topic_name [] tt)) p
  let t := mapUpdate topic_name (fun types => types ++ [type_name]) t
  let p := mapUpdate gid
    (mapUpdate pair (mapUpdate topic_name (fun types => types ++ [type_name]))) p
  (true, ⟨t, p⟩)

/-- `TopicCache::remove_topic` (topic_cache.cpp): returns false when the topic
name is not in `topic_to_types_` at all; otherwise erases one occurrence of
the type from the global map and, if the participant/node/topic chain is
found, one occurrence from the nested map, pruning entries that become empty,
and returns true (also when the participant chain is absent). -/
def TopicCache.remove_topic (c : TopicCache) (gid : Gid)
    (namespace_ node_name topic_name type_name : String) : Option (Bool × TopicCache) :=
  let pair : NamespaceNamePair := (namespace_, node_name)
  match mapFind topic_name c.topic_to_types_ with
  | none => some (false, c)
  | some type_vec =>
    match vecEraseFound type_name type_vec with
    | none => none
    | some type_vec' =>
      let t := mapUpdate topic_name (fun _ => type_vec') c.topic_to_types_
      let t := if type_vec' = [] then mapErase topic_name t else t
      match mapFind gid c.participant_to_nodes_to_topics_ with
      | none => some (true, ⟨t, c.participant_to_nodes_to_topics_⟩)
      | some node_map =>
        match mapFind pair node_map with
        | none => some (true, ⟨t, c.participant_to_nodes_to_topics_⟩)
        | some topic_map =>
          match mapFind topic_name topic_map with
          | none => some (true, ⟨t, c.participant_to_nodes_to_topics_⟩)
          | some ptype_vec =>
            match vecEraseFound type_name ptype_vec with
            | none => none
            | some ptype_vec' =>
              let topic_map' := mapUpdate topic_name (fun _ => ptype_vec') topic_map
              let topic_map' := if ptype_vec' = [] then mapErase topic_name topic_map'
                else topic_map'
              let node_map' := mapUpdate pair (fun _ => topic_map') node_map
              let node_map' := if topic_map' = [] then mapErase pair node_map' else node_map'
              let p := mapUpdate gid (fun _ => node_map') c.participant_to_nodes_to_topics_
              let p := if node_map' = [] then mapErase gid p else p
              some (true, ⟨t, p⟩)

/-- The empty topic cache. -/
def emptyTopicCache : TopicCache := ⟨[], []⟩

/-- Claim C8: for every (gid, namespace, node, topic, type) tuple, adding it
twice with `add_topic` and then removing it twice with `remove_topic`
returns a fresh `TopicCache` to empty: both `get_topic_to_types()` and
`get_participant_to_nodes_to_topics()` contain no entries, with no leftover
empty topic, node, or participant map entries. -/
theorem topic_cache_add_twice_remove_twice (gid : Gid) (ns node topic ty : String) :
    ((((emptyTopicCache.add_topic gid ns node topic ty).2.add_topic
        gid ns node topic ty).2.remove_topic gid ns node topic ty).bind
      (fun r => r.2.remove_topic gid ns node topic ty) =
      some (true, emptyTopicCache)) ∧
    emptyTopicCache.get_topic_to_types = [] ∧
    emptyTopicCache.get_participant_to_nodes_to_topics = [] := by
  refine ⟨?_, rfl, rfl⟩
  simp [emptyTopicCache, TopicCache.add_topic, TopicCache.remove_topic, mapFind,
    mapInsertIfAbsent, mapUpdate, mapErase, vecEraseFound]

/-- Counterexample to claim C9: the tuple (gid 2, my_ns, my_node, my_topic,
my_type) was never recorded by a matching `add_topic` (only gid 1 recorded
it), yet `remove_topic` returns success (true), and it even erases the type
occurrence recorded by gid 1 from the global topic map. -/
theorem topic_cache_remove_unrecorded_counterexample :
    ((emptyTopicCache.add_topic 1 "my_ns" "my_node" "my_topic" "my_type").2.remove_topic
        2 "my_ns" "my_node" "my_topic" "my_type") =
      some (true,
        ⟨[], [(1, [(("my_ns", "my_node"), [("my_topic", ["my_type"])])])]⟩) := by
  decide

/-- Amended claim C9: `remove_topic` returns the failure indication (false)
exactly when the topic name is absent from the global `topic_to_types_` map,
and in that case the cache is unchanged; whenever the topic name is known the
call reports success, even if this particular (gid, namespace, node) tuple
never recorded it.  (Counts cannot go negative: entries are pruned exactly
when their type list empties.) -/
theorem topic_cache_remove_topic_failure_iff (c : TopicCache) (gid : Gid)
    (ns node topic ty : String) :
    (mapFind topic c.topic_to_types_ = none →
      c.remove_topic gid ns node topic ty = some (false, c)) ∧
    (∀ out, c.remove_topic gid ns node topic ty = some out →
      (out.1 = false ↔ mapFind topic c.topic_to_types_ = none)) := by
  constructor
  · intro h
    unfold TopicCache.remove_topic
    simp only [h]
  · intro out hout
    rcases hfind : mapFind topic c.topic_to_types_ with _ | tv
    · unfold TopicCache.remove_topic at hout
      simp only [hfind] at hout
      cases hout
      simp
    · unfold TopicCache.remove_topic at hout
      simp only [hfind] at hout
      rcases hv : vecEraseFound ty tv with _ | tv'
      · simp only [hv] at hout
        cases hout
      · simp only [hv] at hout
        rcases hg : mapFind gid c.participant_to_nodes_to_topics_ with _ | node_map
        · simp only [hg] at hout
          cases hout
          simp [hfind]
        · simp only [hg] at hout
          rcases hp : mapFind (ns, node) node_map with _ | topic_map
          · simp only [hp] at hout
            cases hout
            simp [hfind]
          · simp only [hp] at hout
            rcases ht : mapFind topic topic_map with _ | ptype_vec
            · simp only [ht] at hout
              cases hout
              simp [hfind]
            · simp only [ht] at hout
              rcases hv2 : vecEraseFound ty ptype_vec with _ | ptype_vec'
              · simp only [hv2] at hout
                cases hout
              · simp only [hv2] at hout
                cases hout
                simp [hfind]

/-- Witness for the amended C9 at a concrete unknown topic: failure returned,
cache unchanged. -/
theorem topic_cache_remove_topic_failure_iff_witness :
    emptyTopicCache.remove_topic 1 "my_ns" "my_node" "my_topic" "my_type" =
      some (false, emptyTopicCache) :=
  (topic_cache_remove_topic_failure_iff emptyTopicCache 1 "my_ns" "my_node" "my_topic"
    "my_type").1 rfl

/-- `rmw_dds_common::msg::NodeEntitiesInfo`. -/
structure NodeEntitiesInfo where
  node_name : String
  node_namespace : String
  reader_gid_seq : List Gid
  writer_gid_seq : List Gid
deriving DecidableEq, Repr

/-- `rmw_dds_common::msg::ParticipantEntitiesInfo`, the gossip message. -/
structure ParticipantEntitiesInfo where
  gid : Gid
  node_entities_info_seq : List NodeEntitiesInfo
deriving DecidableEq, Repr

/-- `GraphCache::EntityInfo`: one discovered writer or reader. -/
structure EntityInfo where
  topic_name : String
  topic_type : String
  participant_gid : Gid
  qos : QoSProfile
deriving DecidableEq, Repr

instance : DecidableEq (List NodeEntitiesInfo) := inferInstance

instance : DecidableEq (List (Gid × List NodeEntitiesInfo)) := inferInstance

instance : DecidableEq (List (Gid × EntityInfo)) := inferInstance

/-- The three maps owned by `GraphCache` (graph_cache.hpp): writers, readers
(each gid → EntityInfo) and participants (gid → node list). -/
structure GraphCache where
  data_writers_ : List (Gid × EntityInfo)
  data_readers_ : List (Gid × EntityInfo)
  participants_ : List (Gid × List NodeEntitiesInfo)
deriving DecidableEq, Repr

/-- `GraphCache::update_participant_entities` (graph_cache.cpp): full-state
replace of the message participant's node list
(`participants_[gid] = msg.node_entities_info_seq`). -/
def GraphCache.update_participant_entities (c : GraphCache)
    (msg : ParticipantEntitiesInfo) : GraphCache :=
  { c with participants_ := mapSet msg.gid msg.node_entities_info_seq c.participants_ }

/-- `GraphCache::remove_participant`. -/
def GraphCache.remove_participant (c : GraphCache) (participant_gid : Gid) :
    Bool × GraphCache :=
  match mapFind participant_gid c.participants_ with
  | some _ => (true, { c with participants_ := mapErase participant_gid c.participants_ })
  | none => (false, c)

/-- `GraphCache::add_participant`: emplace of an empty node list (no-op when
the participant is already present). -/
def GraphCache.add_participant (c : GraphCache) (participant_gid : Gid) : GraphCache :=
  { c with participants_ := mapInsertIfAbsent participant_gid [] c.participants_ }

/-- The lambda of `GraphCache::remove_node` / `__modify_node_info`: node
identity is the (name, namespace) pair. -/
def nodeNameMatches (node_name node_namespace : String) (n : NodeEntitiesInfo) : Bool :=
  n.node_name == node_name && n.node_namespace == node_namespace

/-- `__create_participant_info_message` (graph_cache.cpp). -/
def createParticipantInfoMessage (gid : Gid) (info : List NodeEntitiesInfo) :
    ParticipantEntitiesInfo :=
  ⟨gid, info⟩

/-- `GraphCache::add_node` (graph_cache.cpp): the participant must already be
registered (`assert(it != participants_.end())`, modelled as `none`); appends
a fresh node record and returns the updated cache with the snapshot message
of the participant's entire node list. -/
def GraphCache.add_node (c : GraphCache) (participant_gid : Gid)
    (node_name node_namespace : String) : Option (GraphCache × ParticipantEntitiesInfo) :=
  match mapFind participant_gid c.participants_ with
  | none => none
  | some nodes =>
    let node_info : NodeEntitiesInfo := ⟨node_name, node_namespace, [], []⟩
    let nodes' := nodes ++ [node_info]
    some ({ c with participants_ := mapUpdate participant_gid (fun _ => nodes') c.participants_ },
      createParticipantInfoMessage participant_gid nodes')

/-- `GraphCache::remove_node` (graph_cache.cpp): `std::remove_if` erases every
node whose (name, namespace) matches; the participant must exist and at least
one node must be removed (both asserts modelled as `none`). -/
def GraphCache.remove_node (c : GraphCache) (participant_gid : Gid)
    (node_name node_namespace : String) : Option (GraphCache × ParticipantEntitiesInfo) :=
  match mapFind participant_gid c.participants_ with
  | none => none
  | some nodes =>
    if nodes.any (nodeNameMatches node_name node_namespace) then
      let nodes' := nodes.filter (fun n => !(nodeNameMatches node_name node_namespace n))
      some ({ c with
          participants_ := mapUpdate participant_gid (fun _ => nodes') c.participants_ },
        createParticipantInfoMessage participant_gid nodes')
    else none

/-- `std::find_if` + in-place modification of the first matching element, as
performed by `__modify_node_info`; `none` when no element matches. -/
def modifyFirst {α : Type} (p : α → Bool) (f : α → α) : List α → Option (List α)
  | [] => none
  | x :: rest =>
    if p x then some (f x :: rest)
    else (modifyFirst p f rest).map (fun r => x :: r)

/-- `__modify_node_info` (graph_cache.cpp): look up the participant, find the
first node matching (name, namespace), apply `func` to it, and return the
snapshot message; both lookup asserts are modelled as `none`. -/
def modifyNodeInfo (c : GraphCache) (participant_gid : Gid)
    (node_name node_namespace : String) (func : NodeEntitiesInfo → NodeEntitiesInfo) :
    Option (GraphCache × ParticipantEntitiesInfo) :=
  match mapFind participant_gid c.participants_ with
  | none => none
  | some nodes =>
    match modifyFirst (nodeNameMatches node_name node_namespace) func nodes with
    | none => none
    | some nodes' =>
      some ({ c with
          participants_ := mapUpdate participant_gid (fun _ => nodes') c.participants_ },
        createParticipantInfoMessage participant_gid nodes')

/-- `GraphCache::associate_writer`: append the writer gid to the node's
writer list. -/
def GraphCache.associate_writer (c : GraphCache) (writer_gid participant_gid : Gid)
    (node_name node_namespace : String) : Option (GraphCache × ParticipantEntitiesInfo) :=
  modifyNodeInfo c participant_gid node_name node_namespace
    (fun info => { info with writer_gid_seq := info.writer_gid_seq ++ [writer_gid] })

/-- `GraphCache::dissociate_writer`: erase the first occurrence of the writer
gid from the node's writer list, a no-op when absent. -/
def GraphCache.dissociate_writer (c : GraphCache) (writer_gid participant_gid : Gid)
    (node_name node_namespace : String) : Option (GraphCache × ParticipantEntitiesInfo) :=
  modifyNodeInfo c participant_gid node_name node_namespace
    (fun info => { info with writer_gid_seq := info.writer_gid_seq.erase writer_gid })

/-- `GraphCache::associate_reader`. -/
def GraphCache.associate_reader (c : GraphCache) (reader_gid participant_gid : Gid)
    (node_name node_namespace : String) : Option (GraphCache × ParticipantEntitiesInfo) :=
  modifyNodeInfo c participant_gid node_name node_namespace
    (fun info => { info with reader_gid_seq := info.reader_gid_seq ++ [reader_gid] })

/-- `GraphCache::dissociate_reader`. -/
def GraphCache.dissociate_reader (c : GraphCache) (reader_gid participant_gid : Gid)
    (node_name node_namespace : String) : Option (GraphCache × ParticipantEntitiesInfo) :=
  modifyNodeInfo c participant_gid node_name node_namespace
    (fun info => { info with reader_gid_seq := info.reader_gid_seq.erase reader_gid })

/-- The graph-relevant state of `rmw_dds_common::Context` (context.hpp): the
local participant gid and the graph cache.  The publisher handle and mutex
are orchestration details; the injected publish callback is modelled as a
function from the gossip message to the returned `rmw_ret_t`. -/
structure Context where
  gid : Gid
  graph_cache : GraphCache
deriving DecidableEq, Repr

/-- `Context::update_node_graph` (context.cpp): add the node, publish the
snapshot, and return the publish result directly — no rollback on failure. -/
def Context.update_node_graph (ctx : Context) (name namespace_ : String)
    (publish_callback : ParticipantEntitiesInfo → RmwRet) : Option (RmwRet × Context) :=
  match ctx.graph_cache.add_node ctx.gid name namespace_ with
  | none => none
  | some (gc, msg) => some (publish_callback msg, { ctx with graph_cache := gc })

/-- `Context::destroy_node_graph` (context.cpp): remove the node, publish,
return the publish result — no rollback on failure. -/
def Context.destroy_node_graph (ctx : Context) (name namespace_ : String)
    (publish_callback : ParticipantEntitiesInfo → RmwRet) : Option (RmwRet × Context) :=
  match ctx.graph_cache.remove_node ctx.gid name namespace_ with
  | none => none
  | some (gc, msg) => some (publish_callback msg, { ctx with graph_cache := gc })

/-- `Context::update_subscriber_graph` (context.cpp): associate the reader,
publish; on a non-OK publish result dissociate the reader again and return
the failure code. -/
def Context.update_subscriber_graph (ctx : Context) (subscription_gid : Gid)
    (name namespace_ : String) (publish_callback : ParticipantEntitiesInfo → RmwRet) :
    Option (RmwRet × Context) :=
  match ctx.graph_cache.associate_reader subscription_gid ctx.gid name namespace_ with
  | none => none
  | some (gc, msg) =>
    let rmw_ret := publish_callback msg
    if rmw_ret ≠ RmwRet.Ok then
      match gc.dissociate_reader subscription_gid ctx.gid name namespace_ with
      | none => none
      | some (gc2, _) => some (rmw_ret, { ctx with graph_cache := gc2 })
    else some (RmwRet.Ok, { ctx with graph_cache := gc })

/-- `Context::update_publisher_graph` (context.cpp): associate the writer,
publish; on failure dissociate the writer again. -/
def Context.update_publisher_graph (ctx : Context) (publisher_gid : Gid)
    (name namespace_ : String) (publish_callback : ParticipantEntitiesInfo → RmwRet) :
    Option (RmwRet × Context) :=
  match ctx.graph_cache.associate_writer publisher_gid ctx.gid name namespace_ with
  | none => none
  | some (gc, msg) =>
    let rmw_ret := publish_callback msg
    if rmw_ret ≠ RmwRet.Ok then
      match gc.dissociate_writer publisher_gid ctx.gid name namespace_ with
      | none => none
      | some (gc2, _) => some (rmw_ret, { ctx with graph_cache := gc2 })
    else some (RmwRet.Ok, { ctx with graph_cache := gc })

/-- `Context::update_client_graph` (context.cpp): associate the request
writer, then the response reader; publish the combined snapshot; on failure
dissociate the reader and then the writer. -/
def Context.update_client_graph (ctx : Context)
    (request_publisher_gid response_subscriber_gid : Gid) (name namespace_ : String)
    (publish_callback : ParticipantEntitiesInfo → RmwRet) : Option (RmwRet × Context) :=
  match ctx.graph_cache.associate_writer request_publisher_gid ctx.gid name namespace_ with
  | none => none
  | some (gc1, _) =>
    match gc1.associate_reader response_subscriber_gid ctx.gid name namespace_ with
    | none => none
    | some (gc2, msg) =>
      let rmw_ret := publish_callback msg
      if rmw_ret ≠ RmwRet.Ok then
        match gc2.dissociate_reader response_subscriber_gid ctx.gid name namespace_ with
        | none => none
        | some (gc3, _) =>
          match gc3.dissociate_writer request_publisher_gid ctx.gid name namespace_ with
          | none => none
          | some (gc4, _) => some (rmw_ret, { ctx with graph_cache := gc4 })
      else some (RmwRet.Ok, { ctx with graph_cache := gc2 })

/-- `Context::update_service_graph` (context.cpp): associate the request
reader, then the response writer; publish; on failure dissociate the writer
and then the reader. -/
def Context.update_service_graph (ctx : Context)
    (request_subscriber_gid response_publisher_gid : Gid) (name namespace_ : String)
    (publish_callback : ParticipantEntitiesInfo → RmwRet) : Option (RmwRet × Context) :=
  match ctx.graph_cache.associate_reader request_subscriber_gid ctx.gid name namespace_ with
  | none => none
  | some (gc1, _) =>
    match gc1.associate_writer response_publisher_gid ctx.gid name namespace_ with
    | none => none
    | some (gc2, msg) =>
      let rmw_ret := publish_callback msg
      if rmw_ret ≠ RmwRet.Ok then
        match gc2.dissociate_writer response_publisher_gid ctx.gid name namespace_ with
        | none => none
        | some (gc3, _) =>
          match gc3.dissociate_reader request_subscriber_gid ctx.gid name namespace_ with
          | none => none
          | some (gc4, _) => some (rmw_ret, { ctx with graph_cache := gc4 })
      else some (RmwRet.Ok, { ctx with graph_cache := gc2 })

theorem mapSet_cons_ne {κ ν : Type} [DecidableEq κ] (k k' : κ) (hne : k' ≠ k) (v v' : ν)
    (rest : List (κ × ν)) :
    mapSet k v ((k', v') :: rest) = (k', v') :: mapSet k v rest := by
  rcases h : mapFind k rest with _ | w <;>
    simp [mapSet, mapFind, mapUpdate, hne, h]

theorem mapFind_mapSet_self {κ ν : Type} [DecidableEq κ] (k : κ) (v : ν)
    (m : List (κ × ν)) : mapFind k (mapSet k v m) = some v := by
  induction m with
  | nil => simp [mapSet, mapFind]
  | cons kv rest ih =>
    obtain ⟨k', v'⟩ := kv
    by_cases h : k' = k
    · subst h
      simp [mapSet, mapFind, mapUpdate]
    · rw [mapSet_cons_ne k k' h v v' rest]
      simp [mapFind, h]
      exact ih

theorem mapFind_mapSet_ne {κ ν : Type} [DecidableEq κ] (k k' : κ) (hne : k' ≠ k) (v : ν)
    (m : List (κ × ν)) : mapFind k' (mapSet k v m) = mapFind k' m := by
  induction m with
  | nil => simp [mapSet, mapFind, Ne.symm hne]
  | cons kv rest ih =>
    obtain ⟨k'', v''⟩ := kv
    by_cases h : k'' = k
    · subst h
      simp [mapSet, mapFind, mapUpdate, Ne.symm hne]
    · rw [mapSet_cons_ne k k'' h v v'' rest]
      by_cases h2 : k'' = k'
      · simp [mapFind, h2]
      · simp [mapFind, h2]
        exact ih

/-- Claim C2: `GraphCache::update_participant_entities` installs the
message's node list as the complete node list stored for the message's
participant gid (full-state replace), and leaves every other participant's
entry — and the writer/reader maps — unchanged. -/
theorem update_participant_entities_full_replace (c : GraphCache)
    (msg : ParticipantEntitiesInfo) :
    (mapFind msg.gid (c.update_participant_entities msg).participants_ =
      some msg.node_entities_info_seq) ∧
    (∀ g, g ≠ msg.gid →
      mapFind g (c.update_participant_entities msg).participants_ =
        mapFind g c.participants_) ∧
    (c.update_participant_entities msg).data_writers_ = c.data_writers_ ∧
    (c.update_participant_entities msg).data_readers_ = c.data_readers_ := by
  refine ⟨?_, ?_, rfl, rfl⟩
  · exact mapFind_mapSet_self msg.gid msg.node_entities_info_seq c.participants_
  · intro g hg
    exact mapFind_mapSet_ne msg.gid g hg msg.node_entities_info_seq c.participants_

/-- A graph cache holding one participant (gid 7) with a previous node list,
used as the witness state for C2. -/
def exampleGraphCache : GraphCache :=
  ⟨[], [], [(7, [⟨"old_node", "/ns", [], []⟩]), (8, [⟨"other", "/ns", [], []⟩])]⟩

/-- The gossip message replacing participant 7's node list. -/
def exampleReplaceMsg : ParticipantEntitiesInfo :=
  ⟨7, [⟨"new_a", "/ns", [], []⟩, ⟨"new_b", "/ns", [], []⟩]⟩

/-- Witness for C2: after the update, gid 7 holds exactly the message's node
list and gid 8 is untouched. -/
theorem update_participant_entities_full_replace_witness :
    (mapFind 7 (exampleGraphCache.update_participant_entities
        exampleReplaceMsg).participants_ =
      some [⟨"new_a", "/ns", [], []⟩, ⟨"new_b", "/ns", [], []⟩]) ∧
    (mapFind 8 (exampleGraphCache.update_participant_entities
        exampleReplaceMsg).participants_ =
      mapFind 8 exampleGraphCache.participants_) := by
  have h := update_participant_entities_full_replace exampleGraphCache exampleReplaceMsg
  exact ⟨h.1, h.2.1 8 (by decide)⟩

/-- Claim C10: `GraphCache::remove_node` erases every node entry of the
participant whose (name, namespace) pair matches, in a single call — when
several nodes carry the identical pair none survives — and the returned
snapshot message reflects the node list with all matches removed. -/
theorem remove_node_erases_all_matches (c : GraphCache) (pg : Gid)
    (name ns : String) (nodes : List NodeEntitiesInfo)
    (hfind : mapFind pg c.participants_ = some nodes)
    (hmatch : nodes.any (nodeNameMatches name ns) = true) :
    c.remove_node pg name ns =
      some ({ c with
            participants_ :=
              mapUpdate pg (fun _ => nodes.filter (fun n => !(nodeNameMatches name ns n)))
                c.participants_ },
        createParticipantInfoMessage pg
          (nodes.filter (fun n => !(nodeNameMatches name ns n)))) ∧
    (∀ n ∈ nodes.filter (fun n => !(nodeNameMatches name ns n)),
      nodeNameMatches name ns n = false) := by
  constructor
  · unfold GraphCache.remove_node
    simp only [hfind, hmatch, if_true]
  · intro n hn
    have := List.of_mem_filter hn
    simp_all

/-- Participant 5 hosting two nodes with the identical (name, namespace) pair
plus one distinct node, used as the witness state for C10. -/
def duplicateNodesCache : GraphCache :=
  ⟨[], [], [(5, [⟨"dup", "/ns", [], []⟩, ⟨"dup", "/ns", [], []⟩, ⟨"keep", "/ns", [], []⟩])]⟩

/-- Witness for C10: removing ("dup", "/ns") from participant 5 removes both
duplicates at once; the snapshot lists only the remaining node. -/
theorem remove_node_erases_all_matches_witness :
    duplicateNodesCache.remove_node 5 "dup" "/ns" =
      some (⟨[], [], [(5, [⟨"keep", "/ns", [], []⟩])]⟩,
        ⟨5, [⟨"keep", "/ns", [], []⟩]⟩) := by
  have h := remove_node_erases_all_matches duplicateNodesCache 5 "dup" "/ns"
    [⟨"dup", "/ns", [], []⟩, ⟨"dup", "/ns", [], []⟩, ⟨"keep", "/ns", [], []⟩]
    (by decide) (by decide)
  exact h.1.trans (by decide)

theorem mapFind_mapUpdate_self {κ ν : Type} [DecidableEq κ] (k : κ) (f : ν → ν)
    (m : List (κ × ν)) : mapFind k (mapUpdate k f m) = (mapFind k m).map f := by
  induction m with
  | nil => simp [mapFind, mapUpdate]
  | cons kv rest ih =>
    obtain ⟨k', v'⟩ := kv
    by_cases h : k' = k <;> simp [mapFind, mapUpdate, h, ih]

theorem mapUpdate_mapUpdate {κ ν : Type} [DecidableEq κ] (k : κ) (f g : ν → ν)
    (m : List (κ × ν)) :
    mapUpdate k f (mapUpdate k g m) = mapUpdate k (fun v => f (g v)) m := by
  induction m with
  | nil => simp [mapUpdate]
  | cons kv rest ih =>
    obtain ⟨k', v'⟩ := kv
    by_cases h : k' = k <;> simp [mapUpdate, h, ih]

theorem mapUpdate_const_self {κ ν : Type} [DecidableEq κ] (k : κ) (v : ν)
    (m : List (κ × ν)) (h : mapFind k m = some v) : mapUpdate k (fun _ => v) m = m := by
  induction m with
  | nil => simp [mapUpdate]
  | cons kv rest ih =>
    obtain ⟨k', v'⟩ := kv
    by_cases hk : k' = k
    · subst hk
      simp [mapFind] at h
      simp [mapUpdate, h]
    · simp [mapFind, hk] at h
      simp [mapUpdate, hk, ih h]

theorem modifyFirst_cancel {α : Type} (p : α → Bool) (f g : α → α)
    (hp : ∀ a, p (f a) = p a) :
    ∀ (l l' : List α), (∀ a ∈ l, g (f a) = a) →
      modifyFirst p f l = some l' → modifyFirst p g l' = some l := by
  intro l
  induction l with
  | nil =>
    intro l' _ hf
    cases hf
  | cons x rest ih =>
    intro l' hfix hf
    unfold modifyFirst at hf
    by_cases hx : p x = true
    · rw [if_pos hx] at hf
      cases hf
      unfold modifyFirst
      rw [hfix x (List.mem_cons_self x rest)]
      simp [hp x, hx]
    · rw [if_neg hx] at hf
      rcases Option.map_eq_some'.mp hf with ⟨r', hr', hl'⟩
      subst hl'
      have hrec := ih r' (fun a ha => hfix a (List.mem_cons_of_mem _ ha)) hr'
      unfold modifyFirst
      rw [if_neg hx, hrec]
      rfl

theorem modifyFirst_mem {α : Type} (p : α → Bool) (f : α → α) :
    ∀ (l l' : List α), modifyFirst p f l = some l' →
      ∀ a ∈ l', a ∈ l ∨ ∃ b, b ∈ l ∧ a = f b := by
  intro l
  induction l with
  | nil =>
    intro l' hf
    cases hf
  | cons x rest ih =>
    intro l' hf a ha
    unfold modifyFirst at hf
    by_cases hx : p x = true
    · rw [if_pos hx] at hf
      cases hf
      rcases List.mem_cons.mp ha with rfl | ha'
      · exact Or.inr ⟨x, List.mem_cons_self x rest, rfl⟩
      · exact Or.inl (List.mem_cons_of_mem _ ha')
    · rw [if_neg hx] at hf
      rcases Option.map_eq_some'.mp hf with ⟨r', hr', hl'⟩
      subst hl'
      rcases List.mem_cons.mp ha with rfl | ha'
      · exact Or.inl (List.mem_cons_self a rest)
      · rcases ih r' hr' a ha' with h | ⟨b, hb, rfl⟩
        · exact Or.inl (List.mem_cons_of_mem _ h)
        · exact Or.inr ⟨b, List.mem_cons_of_mem _ hb, rfl⟩

/-- Rolling back a reader association: if the reader gid was not referenced
by any node of the participant, `dissociate_reader` applied to the cache
returned by `associate_reader` restores the original cache exactly (the
inverse-operation pattern used by the Context rollback paths). -/
theorem associate_reader_rollback (c : GraphCache) (rg pg : Gid) (name ns : String)
    (nodes : List NodeEntitiesInfo)
    (hfind : mapFind pg c.participants_ = some nodes)
    (hfresh : ∀ n ∈ nodes, rg ∉ n.reader_gid_seq)
    (gc1 : GraphCache) (msg : ParticipantEntitiesInfo)
    (hassoc : c.associate_reader rg pg name ns = some (gc1, msg)) :
    gc1.dissociate_reader rg pg name ns =
      some (c, createParticipantInfoMessage pg nodes) := by
  unfold GraphCache.associate_reader modifyNodeInfo at hassoc
  simp only [hfind] at hassoc
  rcases hmod : modifyFirst (nodeNameMatches name ns)
      (fun info => { info with reader_gid_seq := info.reader_gid_seq ++ [rg] }) nodes
    with _ | nodes1
  · simp only [hmod] at hassoc
    cases hassoc
  · simp only [hmod] at hassoc
    cases hassoc
    unfold GraphCache.dissociate_reader modifyNodeInfo
    have hfind1 : mapFind pg (mapUpdate pg (fun _ => nodes1) c.participants_) = some nodes1 := by
      rw [mapFind_mapUpdate_self, hfind]
      rfl
    simp only [hfind1]
    have hcancel := modifyFirst_cancel (nodeNameMatches name ns)
      (fun info => { info with reader_gid_seq := info.reader_gid_seq ++ [rg] })
      (fun info => { info with reader_gid_seq := info.reader_gid_seq.erase rg })
      (fun a => rfl) nodes nodes1
      (by
        intro a ha
        have hna : rg ∉ a.reader_gid_seq := hfresh a ha
        cases a with
        | mk n1 n2 rs ws =>
          simp only [] at hna ⊢
          rw [List.erase_append_right _ hna]
          simp)
      hmod
    simp only [hcancel]
    rw [mapUpdate_mapUpdate, mapUpdate_const_self pg nodes c.participants_ hfind]

/-- Rolling back a writer association (mirror image of
`associate_reader_rollback`). -/
theorem associate_writer_rollback (c : GraphCache) (wg pg : Gid) (name ns : String)
    (nodes : List NodeEntitiesInfo)
    (hfind : mapFind pg c.participants_ = some nodes)
    (hfresh : ∀ n ∈ nodes, wg ∉ n.writer_gid_seq)
    (gc1 : GraphCache) (msg : ParticipantEntitiesInfo)
    (hassoc : c.associate_writer wg pg name ns = some (gc1, msg)) :
    gc1.dissociate_writer wg pg name ns =
      some (c, createParticipantInfoMessage pg nodes) := by
  unfold GraphCache.associate_writer modifyNodeInfo at hassoc
  simp only [hfind] at hassoc
  rcases hmod : modifyFirst (nodeNameMatches name ns)
      (fun info => { info with writer_gid_seq := info.writer_gid_seq ++ [wg] }) nodes
    with _ | nodes1
  · simp only [hmod] at hassoc
    cases hassoc
  · simp only [hmod] at hassoc
    cases hassoc
    unfold GraphCache.dissociate_writer modifyNodeInfo
    have hfind1 : mapFind pg (mapUpdate pg (fun _ => nodes1) c.participants_) = some nodes1 := by
      rw [mapFind_mapUpdate_self, hfind]
      rfl
    simp only [hfind1]
    have hcancel := modifyFirst_cancel (nodeNameMatches name ns)
      (fun info => { info with writer_gid_seq := info.writer_gid_seq ++ [wg] })
      (fun info => { info with writer_gid_seq := info.writer_gid_seq.erase wg })
      (fun a => rfl) nodes nodes1
      (by
        intro a ha
        have hna : wg ∉ a.writer_gid_seq := hfresh a ha
        cases a with
        | mk n1 n2 rs ws =>
          simp only [] at hna ⊢
          rw [List.erase_append_right _ hna]
          simp)
      hmod
    simp only [hcancel]
    rw [mapUpdate_mapUpdate, mapUpdate_const_self pg nodes c.participants_ hfind]

theorem update_subscriber_rollback (ctx : Context) (sub_gid : Gid) (name ns : String)
    (pc : ParticipantEntitiesInfo → RmwRet) (nodes : List NodeEntitiesInfo)
    (ret : RmwRet) (ctx' : Context)
    (hfind : mapFind ctx.gid ctx.graph_cache.participants_ = some nodes)
    (hfresh : ∀ n ∈ nodes, sub_gid ∉ n.reader_gid_seq)
    (hop : ctx.update_subscriber_graph sub_gid name ns pc = some (ret, ctx'))
    (hret : ret ≠ RmwRet.Ok) :
    ctx'.graph_cache = ctx.graph_cache := by
  unfold Context.update_subscriber_graph at hop
  rcases hassoc : ctx.graph_cache.associate_reader sub_gid ctx.gid name ns with _ | pr
  · simp only [hassoc] at hop
    cases hop
  · obtain ⟨gc1, msg⟩ := pr
    simp only [hassoc] at hop
    have hdis := associate_reader_rollback ctx.graph_cache sub_gid ctx.gid name ns nodes
      hfind hfresh gc1 msg hassoc
    by_cases hcond : pc msg ≠ RmwRet.Ok
    · rw [if_pos hcond] at hop
      simp only [hdis] at hop
      cases hop
      rfl
    · rw [if_neg hcond] at hop
      cases hop
      exact absurd rfl hret

theorem update_publisher_rollback (ctx : Context) (pub_gid : Gid) (name ns : String)
    (pc : ParticipantEntitiesInfo → RmwRet) (nodes : List NodeEntitiesInfo)
    (ret : RmwRet) (ctx' : Context)
    (hfind : mapFind ctx.gid ctx.graph_cache.participants_ = some nodes)
    (hfresh : ∀ n ∈ nodes, pub_gid ∉ n.writer_gid_seq)
    (hop : ctx.update_publisher_graph pub_gid name ns pc = some (ret, ctx'))
    (hret : ret ≠ RmwRet.Ok) :
    ctx'.graph_cache = ctx.graph_cache := by
  unfold Context.update_publisher_graph at hop
  rcases hassoc : ctx.graph_cache.associate_writer pub_gid ctx.gid name ns with _ | pr
  · simp only [hassoc] at hop
    cases hop
  · obtain ⟨gc1, msg⟩ := pr
    simp only [hassoc] at hop
    have hdis := associate_writer_rollback ctx.graph_cache pub_gid ctx.gid name ns nodes
      hfind hfresh gc1 msg hassoc
    by_cases hcond : pc msg ≠ RmwRet.Ok
    · rw [if_pos hcond] at hop
      simp only [hdis] at hop
      cases hop
      rfl
    · rw [if_neg hcond] at hop
      cases hop
      exact absurd rfl hret

theorem update_client_rollback (ctx : Context) (rpg rsg : Gid) (name ns : String)
    (pc : ParticipantEntitiesInfo → RmwRet) (nodes : List NodeEntitiesInfo)
    (ret : RmwRet) (ctx' : Context)
    (hfind : mapFind ctx.gid ctx.graph_cache.participants_ = some nodes)
    (hfreshW : ∀ n ∈ nodes, rpg ∉ n.writer_gid_seq)
    (hfreshR : ∀ n ∈ nodes, rsg ∉ n.reader_gid_seq)
    (hop : ctx.update_client_graph rpg rsg name ns pc = some (ret, ctx'))
    (hret : ret ≠ RmwRet.Ok) :
    ctx'.graph_cache = ctx.graph_cache := by
  unfold Context.update_client_graph at hop
  rcases haw : ctx.graph_cache.associate_writer rpg ctx.gid name ns with _ | pr1
  · simp only [haw] at hop
    cases hop
  · obtain ⟨gc1, m1⟩ := pr1
    simp only [haw] at hop
    have hdisW := associate_writer_rollback ctx.graph_cache rpg ctx.gid name ns nodes
      hfind hfreshW gc1 m1 haw
    have haw' := haw
    unfold GraphCache.associate_writer modifyNodeInfo at haw'
    simp only [hfind] at haw'
    rcases hmodW : modifyFirst (nodeNameMatches name ns)
        (fun info => { info with writer_gid_seq := info.writer_gid_seq ++ [rpg] }) nodes
      with _ | nodes1
    · simp only [hmodW] at haw'
      cases haw'
    · simp only [hmodW] at haw'
      obtain ⟨hgc1, hm1⟩ := Prod.mk.inj (Option.some.inj haw')
      have hfind1 : mapFind ctx.gid gc1.participants_ = some nodes1 := by
        rw [← hgc1]
        show mapFind ctx.gid (mapUpdate ctx.gid (fun _ => nodes1)
          ctx.graph_cache.participants_) = some nodes1
        rw [mapFind_mapUpdate_self, hfind]
        rfl
      have hfreshR1 : ∀ n ∈ nodes1, rsg ∉ n.reader_gid_seq := by
        intro a ha
        rcases modifyFirst_mem _ _ nodes nodes1 hmodW a ha with hmem | ⟨b, hb, rfl⟩
        · exact hfreshR a hmem
        · exact hfreshR b hb
      rcases har : gc1.associate_reader rsg ctx.gid name ns with _ | pr2
      · simp only [har] at hop
        cases hop
      · obtain ⟨gc2, msg⟩ := pr2
        simp only [har] at hop
        have hdisR := associate_reader_rollback gc1 rsg ctx.gid name ns nodes1
          hfind1 hfreshR1 gc2 msg har
        by_cases hcond : pc msg ≠ RmwRet.Ok
        · rw [if_pos hcond] at hop
          simp only [hdisR] at hop
          simp only [hdisW] at hop
          cases hop
          rfl
        · rw [if_neg hcond] at hop
          cases hop
          exact absurd rfl hret

theorem update_service_rollback (ctx : Context) (rsg rpg : Gid) (name ns : String)
    (pc : ParticipantEntitiesInfo → RmwRet) (nodes : List NodeEntitiesInfo)
    (ret : RmwRet) (ctx' : Context)
    (hfind : mapFind ctx.gid ctx.graph_cache.participants_ = some nodes)
    (hfreshR : ∀ n ∈ nodes, rsg ∉ n.reader_gid_seq)
    (hfreshW : ∀ n ∈ nodes, rpg ∉ n.writer_gid_seq)
    (hop : ctx.update_service_graph rsg rpg name ns pc = some (ret, ctx'))
    (hret : ret ≠ RmwRet.Ok) :
    ctx'.graph_cache = ctx.graph_cache := by
  unfold Context.update_service_graph at hop
  rcases har : ctx.graph_cache.associate_reader rsg ctx.gid name ns with _ | pr1
  · simp only [har] at hop
    cases hop
  · obtain ⟨gc1, m1⟩ := pr1
    simp only [har] at hop
    have hdisR := associate_reader_rollback ctx.graph_cache rsg ctx.gid name ns nodes
      hfind hfreshR gc1 m1 har
    have har' := har
    unfold GraphCache.associate_reader modifyNodeInfo at har'
    simp only [hfind] at har'
    rcases hmodR : modifyFirst (nodeNameMatches name ns)
        (fun info => { info with reader_gid_seq := info.reader_gid_seq ++ [rsg] }) nodes
      with _ | nodes1
    · simp only [hmodR] at har'
      cases har'
    · simp only [hmodR] at har'
      obtain ⟨hgc1, hm1⟩ := Prod.mk.inj (Option.some.inj har')
      have hfind1 : mapFind ctx.gid gc1.participants_ = some nodes1 := by
        rw [← hgc1]
        show mapFind ctx.gid (mapUpdate ctx.gid (fun _ => nodes1)
          ctx.graph_cache.participants_) = some nodes1
        rw [mapFind_mapUpdate_self, hfind]
        rfl
      have hfreshW1 : ∀ n ∈ nodes1, rpg ∉ n.writer_gid_seq := by
        intro a ha
        rcases modifyFirst_mem _ _ nodes nodes1 hmodR a ha with hmem | ⟨b, hb, rfl⟩
        · exact hfreshW a hmem
        · exact hfreshW b hb
      rcases haw : gc1.associate_writer rpg ctx.gid name ns with _ | pr2
      · simp only [haw] at hop
        cases hop
      · obtain ⟨gc2, msg⟩ := pr2
        simp only [haw] at hop
        have hdisW := associate_writer_rollback gc1 rpg ctx.gid name ns nodes1
          hfind1 hfreshW1 gc2 msg haw
        by_cases hcond : pc msg ≠ RmwRet.Ok
        · rw [if_pos hcond] at hop
          simp only [hdisW] at hop
          simp only [hdisR] at hop
          cases hop
          rfl
        · rw [if_neg hcond] at hop
          cases hop
          exact absurd rfl hret

/-- A context whose participant (gid 1) is registered with an empty node
list. -/
def nodeRollbackCtx : Context := ⟨1, ⟨[], [], [(1, [])]⟩⟩

/-- Counterexample to claim C1 as stated: `Context::update_node_graph` does
NOT roll back the `add_node` mutation when the publish callback fails — the
failure code is returned but the node stays in the cache, so the cache state
after the failed call differs from the state before it. -/
theorem context_node_add_no_rollback_counterexample :
    nodeRollbackCtx.update_node_graph "n" "/ns" (fun _ => RmwRet.Error) =
      some (RmwRet.Error, ⟨1, ⟨[], [], [(1, [⟨"n", "/ns", [], []⟩])]⟩⟩) ∧
    (⟨1, ⟨[], [], [(1, [⟨"n", "/ns", [], []⟩])]⟩⟩ : Context).graph_cache ≠
      nodeRollbackCtx.graph_cache := by
  decide

/-- Amended claim C1: for the entity-association operations
(`update_subscriber_graph`, `update_publisher_graph`, and the compound
`update_client_graph` / `update_service_graph`), a non-OK publish callback
result triggers a rollback with the inverse dissociate operation, so the
graph cache after the failed call equals the cache before it (given the
standard caller contract that the node exists and the entity gids are not
already associated); node add/remove (`update_node_graph` /
`destroy_node_graph`) do NOT follow this pattern — they return the failure
code with the mutation left applied, as the counterexample shows. -/
theorem context_entity_ops_rollback_on_publish_failure :
    (∀ (ctx : Context) (sub_gid : Gid) (name ns : String)
      (pc : ParticipantEntitiesInfo → RmwRet) (nodes : List NodeEntitiesInfo)
      (ret : RmwRet) (ctx' : Context),
      mapFind ctx.gid ctx.graph_cache.participants_ = some nodes →
      (∀ n ∈ nodes, sub_gid ∉ n.reader_gid_seq) →
      ctx.update_subscriber_graph sub_gid name ns pc = some (ret, ctx') →
      ret ≠ RmwRet.Ok → ctx'.graph_cache = ctx.graph_cache) ∧
    (∀ (ctx : Context) (pub_gid : Gid) (name ns : String)
      (pc : ParticipantEntitiesInfo → RmwRet) (nodes : List NodeEntitiesInfo)
      (ret : RmwRet) (ctx' : Context),
      mapFind ctx.gid ctx.graph_cache.participants_ = some nodes →
      (∀ n ∈ nodes, pub_gid ∉ n.writer_gid_seq) →
      ctx.update_publisher_graph pub_gid name ns pc = some (ret, ctx') →
      ret ≠ RmwRet.Ok → ctx'.graph_cache = ctx.graph_cache) ∧
    (∀ (ctx : Context) (rpg rsg : Gid) (name ns : String)
      (pc : ParticipantEntitiesInfo → RmwRet) (nodes : List NodeEntitiesInfo)
      (ret : RmwRet) (ctx' : Context),
      mapFind ctx.gid ctx.graph_cache.participants_ = some nodes →
      (∀ n ∈ nodes, rpg ∉ n.writer_gid_seq) →
      (∀ n ∈ nodes, rsg ∉ n.reader_gid_seq) →
      ctx.update_client_graph rpg rsg name ns pc = some (ret, ctx') →
      ret ≠ RmwRet.Ok → ctx'.graph_cache = ctx.graph_cache) ∧
    (∀ (ctx : Context) (rsg rpg : Gid) (name ns : String)
      (pc : ParticipantEntitiesInfo → RmwRet) (nodes : List NodeEntitiesInfo)
      (ret : RmwRet) (ctx' : Context),
      mapFind ctx.gid ctx.graph_cache.participants_ = some nodes →
      (∀ n ∈ nodes, rsg ∉ n.reader_gid_seq) →
      (∀ n ∈ nodes, rpg ∉ n.writer_gid_seq) →
      ctx.update_service_graph rsg rpg name ns pc = some (ret, ctx') →
      ret ≠ RmwRet.Ok → ctx'.graph_cache = ctx.graph_cache) :=
  ⟨fun ctx sg name ns pc nodes ret ctx' h1 h2 h3 h4 =>
      update_subscriber_rollback ctx sg name ns pc nodes ret ctx' h1 h2 h3 h4,
   fun ctx pg name ns pc nodes ret ctx' h1 h2 h3 h4 =>
      update_publisher_rollback ctx pg name ns pc nodes ret ctx' h1 h2 h3 h4,
   fun ctx rpg rsg name ns pc nodes ret ctx' h1 h2 h3 h4 h5 =>
      update_client_rollback ctx rpg rsg name ns pc nodes ret ctx' h1 h2 h3 h4 h5,
   fun ctx rsg rpg name ns pc nodes ret ctx' h1 h2 h3 h4 h5 =>
      update_service_rollback ctx rsg rpg name ns pc nodes ret ctx' h1 h2 h3 h4 h5⟩

/-- A context whose participant (gid 1) hosts one node with no associated
entities, used to witness the rollback theorem. -/
def rollbackWitnessCtx : Context := ⟨1, ⟨[], [], [(1, [⟨"n", "/ns", [], []⟩])]⟩⟩

/-- Witness for the amended C1: a failed publish during
`update_subscriber_graph` and during `update_client_graph` leaves the
concrete witness context's cache unchanged. -/
theorem context_entity_ops_rollback_on_publish_failure_witness :
    (rollbackWitnessCtx.update_subscriber_graph 42 "n" "/ns" (fun _ => RmwRet.Error) =
      some (RmwRet.Error, rollbackWitnessCtx)) ∧
    (rollbackWitnessCtx.update_client_graph 43 44 "n" "/ns" (fun _ => RmwRet.Error) =
      some (RmwRet.Error, rollbackWitnessCtx)) ∧
    rollbackWitnessCtx.graph_cache = rollbackWitnessCtx.graph_cache := by
  refine ⟨by decide, by decide, ?_⟩
  exact context_entity_ops_rollback_on_publish_failure.1 rollbackWitnessCtx 42 "n" "/ns"
    (fun _ => RmwRet.Error) [⟨"n", "/ns", [], []⟩] RmwRet.Error rollbackWitnessCtx
    (by decide) (by decide) (by decide) (by decide)
